import Mathlib

/-!
Verification of the hexapod inverse-kinematics solver
(`hexapod/ik_solver.py` of philippeitis/hexapod-robot-simulator).

The solver under verification is `hexapod/ik_solver.py`.  Its collaborators
— the vector algebra library (`hexapod/points.py`), the robot model
(`Hexapod`, `hexapod/models.py`), the pose constants (`hexapod/const.py`)
and the settings module — are external to the verified source and are
modelled from the specification's interface descriptions (spec sections
3 and 6).  All angles are in degrees, as in the source.  The mutable
`Hexapod` aggregate and the module-level pose table are modelled by
explicit state passing: each operation takes the current state and
returns the updated one.  Debug-only printing and assertions
(`might_print_ik`, `might_print_points`, `sanity_leg_lengths_check`)
are no-ops for the computed result and are omitted.
-/

open Real

/-- Modelled from the spec: a named 3D coordinate (x, y, z) from the vector
algebra collaborator.  The source's `Point` also carries a `name` label used
only for display; the solver computes coordinates, so only those are kept. -/
structure Point where
  x : ℝ
  y : ℝ
  z : ℝ

/-- Modelled from the spec: vector length (vector algebra collaborator). -/
noncomputable def length (p : Point) : ℝ :=
  Real.sqrt (p.x ^ 2 + p.y ^ 2 + p.z ^ 2)

/-- Modelled from the spec: vector addition. -/
def add_vectors (a b : Point) : Point :=
  ⟨a.x + b.x, a.y + b.y, a.z + b.z⟩

/-- Modelled from the spec: scalar multiple of a vector. -/
def scalar_multiply (p : Point) (s : ℝ) : Point :=
  ⟨s * p.x, s * p.y, s * p.z⟩

/-- Modelled from the spec: the vector from point a to point b. -/
def vector_from_to (a b : Point) : Point :=
  ⟨b.x - a.x, b.y - a.y, b.z - a.z⟩

/-- Modelled from the spec: dot product (used by the orientation test and
the plane projection). -/
def dot (a b : Point) : ℝ :=
  a.x * b.x + a.y * b.y + a.z * b.z

/-- Modelled from the spec: cross product (used by the orientation test). -/
def cross (a b : Point) : Point :=
  ⟨a.y * b.z - a.z * b.y, a.z * b.x - a.x * b.z, a.x * b.y - a.y * b.x⟩

/-- Modelled from the spec: unit-vector normalization. -/
noncomputable def get_unit_vector (v : Point) : Point :=
  scalar_multiply v (1 / length v)

/-- Modelled from the spec: triangle-inequality test over three lengths.
The spec's case-boundary note (a degenerate triangle with d = femur + tibia
is treated as the unreachable case) fixes the inequalities as strict. -/
def is_triangle (a b c : ℝ) : Prop :=
  a + b > c ∧ a + c > b ∧ b + c > a

noncomputable instance (a b c : ℝ) : Decidable (is_triangle a b c) := by
  unfold is_triangle; infer_instance

/-- Modelled from the spec: the counter-clockwise orientation test of three
vectors.  `is_counter_clockwise a b n` holds when the rotation carrying a
onto b is counter-clockwise about the normal n, i.e. when a lies clockwise
from b as seen from the tip of n (positive scalar triple product n ⬝ (a × b)). -/
def is_counter_clockwise (a b n : Point) : Prop :=
  0 < dot n (cross a b)

noncomputable instance (a b n : Point) : Decidable (is_counter_clockwise a b n) := by
  unfold is_counter_clockwise; infer_instance

/-- Modelled from the spec: projection of a vector v onto the plane through
the origin with normal n (v minus its component along n). -/
noncomputable def project_vector_onto_plane (v n : Point) : Point :=
  vector_from_to (scalar_multiply n (dot v n / dot n n)) v

/-- Degrees to radians, as np.radians in the source. -/
noncomputable def radians (θ : ℝ) : ℝ := θ * (π / 180)

/-- Radians to degrees. -/
noncomputable def degrees (θ : ℝ) : ℝ := θ * (180 / π)

/-- Cosine of an angle given in degrees (np.cos ∘ np.radians). -/
noncomputable def cosd (θ : ℝ) : ℝ := Real.cos (radians θ)

/-- Sine of an angle given in degrees (np.sin ∘ np.radians). -/
noncomputable def sind (θ : ℝ) : ℝ := Real.sin (radians θ)

/-- Arc cosine returning degrees. -/
noncomputable def arccosd (t : ℝ) : ℝ := degrees (Real.arccos t)

/-- Modelled from the spec: unsigned angle between two vectors, in degrees,
in the range 0..180 (vector algebra collaborator). -/
noncomputable def angle_between (a b : Point) : ℝ :=
  arccosd (dot a b / (length a * length b))

/-- Modelled from the spec: law-of-cosines angle (in degrees) opposite the
last side c of a triangle with sides a, b, c. -/
noncomputable def angle_opposite_of_last_side (a b c : ℝ) : ℝ :=
  arccosd ((a ^ 2 + b ^ 2 - c ^ 2) / (2 * a * b))

/-- Modelled from the spec: rotation about the z axis by an angle in
degrees, applied to a point (the rotz frame of the vector algebra
collaborator together with Point.update_point_wrt). -/
noncomputable def rotz_apply (θ : ℝ) (p : Point) : Point :=
  ⟨p.x * cosd θ - p.y * sind θ, p.x * sind θ + p.y * cosd θ, p.z⟩

/-- Python's float modulo: the representative of x mod m in [0, m) for a
positive modulus m (the sign of the result follows the divisor). -/
noncomputable def pymod (x m : ℝ) : ℝ := x - m * (⌊x / m⌋ : ℤ)

/-!  The robot model collaborator, modelled from the spec (section 3). -/

/-- Modelled from the spec: a leg has an identity (name encoding
side/position, e.g. "left-front") and four joint points p0..p3. -/
structure Leg where
  name : String
  p0 : Point
  p1 : Point
  p2 : Point
  p3 : Point

/-- Modelled from the spec: a leg's foot tip is always p3. -/
def Leg.foot_tip (leg : Leg) : Point := leg.p3

/-- Modelled from the spec: the Hexapod aggregate root, restricted to the
read/write surface the solver uses — six legs (LEG_COUNT = 6 fixed), the
body's six mount points (body.vertices) and per-leg static mounting-angle
offsets (body.COXIA_AXES), the three shared segment lengths, the current
local axes, and the body's current orientation frame (applied to points as
a function, standing for Point.update_point_wrt of the 4×4 matrix). -/
structure Hexapod where
  legs : Fin 6 → Leg
  bodyVertices : Fin 6 → Point
  coxiaAxes : Fin 6 → ℝ
  coxia : ℝ
  femur : ℝ
  tibia : ℝ
  x_axis : Point
  z_axis : Point
  body_rotation_frame : Point → Point

/-- Modelled from the spec: the configured angle limits imported from the
settings module (ALPHA_MAX_ANGLE, BETA_MAX_ANGLE, GAMMA_MAX_ANGLE). -/
structure Settings where
  ALPHA_MAX_ANGLE : ℝ
  BETA_MAX_ANGLE : ℝ
  GAMMA_MAX_ANGLE : ℝ

/-- The solver's alert strings, rendered as a structured type: one
constructor per distinct f-string in the source, with the interpolated
values as fields. -/
inductive Alert where
  | bodyContactShovedOnGround
  | coxiaJointShovedOnGround
  | groundBlocking (legName : String)
  | femurTooLong (legName : String)
  | tibiaTooLong (legName : String)
  | tooManyLegsOff (legs : List String)
  | allLeftLegsOff (legs : List String)
  | allRightLegsOff (legs : List String)
  | aboveRangeOfMotion (angleName : String) (legName : String) (required : ℝ) (limit : ℝ)

/-- One entry of the pose table: the three joint angles of one leg. -/
structure PoseAngles where
  coxia : ℝ
  femur : ℝ
  tibia : ℝ

/-- The module-level pose table (poses = deepcopy(HEXAPOD_POSE)): one
angle triple per leg, 18 angles in total. -/
def PosesTable := Fin 6 → PoseAngles

/-- leg.split("-")[0]: the part of a leg name before the first dash (the
whole name when it has no dash). -/
def leg_position (leg : String) : String := ⟨leg.data.takeWhile (fun c => c ≠ '-')⟩

/-- legs_too_short, translated from the source: unstable when four or more
legs are up, or when exactly three are up and all are on the same side. -/
def legs_too_short (legs : List String) : Bool × Option Alert :=
  if legs.length ≥ 4 then
    (true, some (Alert.tooManyLegsOff legs))
  else if legs.length = 3 then
    let leg_positions := legs.map leg_position
    if leg_positions.count "left" = 3 then (true, some (Alert.allLeftLegsOff legs))
    else if leg_positions.count "right" = 3 then (true, some (Alert.allRightLegsOff legs))
    else (false, none)
  else (false, none)

/-- angle_above_limit, translated from the source: an angle violates its
limit when its absolute value strictly exceeds the configured range. -/
noncomputable def angle_above_limit (angle : ℝ) (angle_range : ℝ)
    (leg_name : String) (angle_name : String) : Bool × Option Alert :=
  if |angle| > angle_range then
    (true, some (Alert.aboveRangeOfMotion angle_name leg_name angle angle_range))
  else (false, none)

/-- beta_gamma_not_within_range, translated from the source: beta is checked
against BETA_MAX_ANGLE first, then gamma against GAMMA_MAX_ANGLE. -/
noncomputable def beta_gamma_not_within_range (cfg : Settings) (beta gamma : ℝ)
    (leg_name : String) : Bool × Option Alert :=
  match angle_above_limit beta cfg.BETA_MAX_ANGLE leg_name "beta angle (beta)" with
  | (true, alert_msg) => (true, alert_msg)
  | (false, _) =>
    match angle_above_limit gamma cfg.GAMMA_MAX_ANGLE leg_name "gamma angle (gamma)" with
    | (true, alert_msg) => (true, alert_msg)
    | (false, _) => (false, none)

/-- body_contact_shoved_on_ground, translated from the source: some leg's
body-mount point is strictly lower than that leg's current foot tip. -/
def body_contact_shoved_on_ground (hexapod : Hexapod) : Prop :=
  ∃ i : Fin 6, (hexapod.bodyVertices i).z < ((hexapod.legs i).foot_tip).z

noncomputable instance (hexapod : Hexapod) : Decidable (body_contact_shoved_on_ground hexapod) := by
  unfold body_contact_shoved_on_ground; infer_instance

/-- update_hexapod_points, translated from the source: overwrite the four
joint points of one leg (the source also copies the old point names onto
the new points, so the leg keeps its labels; names are not modelled). -/
def update_hexapod_points (hexapod : Hexapod) (leg_id : Fin 6)
    (points : Point × Point × Point × Point) : Hexapod :=
  { hexapod with
    legs := Function.update hexapod.legs leg_id
      { name := (hexapod.legs leg_id).name
        p0 := points.1
        p1 := points.2.1
        p2 := points.2.2.1
        p3 := points.2.2.2 } }

/-- find_twist_frame, translated from the source: the unsigned angle between
the unit coxia direction and the body's x axis, negated when the
counter-clockwise orientation test of (leg direction, body x axis, body
z axis) holds, together with the rotation-about-z frame by that angle. -/
noncomputable def find_twist_frame (hexapod : Hexapod) (unit_coxia_vector : Point) :
    ℝ × (Point → Point) :=
  let twist0 := angle_between unit_coxia_vector hexapod.x_axis
  let twist :=
    if is_counter_clockwise unit_coxia_vector hexapod.x_axis hexapod.z_axis
    then -twist0 else twist0
  (twist, rotz_apply twist)

/-- compute_twist_wrt_to_world, translated from the source: subtract the
leg's static mounting-angle offset, reduce modulo 360 (Python float %,
landing in [0, 360)), then fold results above 180 down by 360.  The
`alpha < -180` branch of the source is kept although it is unreachable
after a Python modulo by a positive constant. -/
noncomputable def compute_twist_wrt_to_world (alpha : ℝ) (coxia_axis : ℝ) : ℝ :=
  if pymod (alpha - coxia_axis) 360 > 180 then pymod (alpha - coxia_axis) 360 - 360
  else if pymod (alpha - coxia_axis) 360 < -180 then 360 + pymod (alpha - coxia_axis) 360
  else pymod (alpha - coxia_axis) 360

/-!  Intermediate values of one loop iteration of inverse_kinematics_update,
named after the source's local variables (lines 166–270). -/

/-- body_to_foot_vector: from the leg's body-mount point to its foot tip. -/
noncomputable def body_to_foot_vec (h : Hexapod) (i : Fin 6) : Point :=
  vector_from_to (h.bodyVertices i) ((h.legs i).foot_tip)

/-- unit_coxia_vector: the body-to-foot vector projected onto the plane
orthogonal to the body's z axis, normalized. -/
noncomputable def unit_coxia_vec (h : Hexapod) (i : Fin 6) : Point :=
  get_unit_vector (project_vector_onto_plane (body_to_foot_vec h i) h.z_axis)

/-- coxia_point: the body-mount point plus the coxia vector. -/
noncomputable def coxia_joint (h : Hexapod) (i : Fin 6) : Point :=
  add_vectors (h.bodyVertices i) (scalar_multiply (unit_coxia_vec h i) h.coxia)

/-- rho: the angle between the unit coxia direction and the body-to-foot
vector. -/
noncomputable def rho (h : Hexapod) (i : Fin 6) : ℝ :=
  angle_between (unit_coxia_vec h i) (body_to_foot_vec h i)

/-- p1 in the local leg frame: (coxia, 0, 0). -/
noncomputable def p1_local (h : Hexapod) : Point := ⟨h.coxia, 0, 0⟩

/-- p3 (the foot tip) in the local leg frame, reconstructed from rho and the
body-to-foot length. -/
noncomputable def p3_local (h : Hexapod) (i : Fin 6) : Point :=
  ⟨length (body_to_foot_vec h i) * cosd (rho h i), 0,
   -(length (body_to_foot_vec h i)) * sind (rho h i)⟩

/-- coxia_to_foot_vector2d: from p1 to p3 in the local leg frame. -/
noncomputable def coxia_to_foot_vector2d (h : Hexapod) (i : Fin 6) : Point :=
  vector_from_to (p1_local h) (p3_local h i)

/-- d: the planar coxia-to-foot length. -/
noncomputable def coxia_to_foot_length (h : Hexapod) (i : Fin 6) : ℝ :=
  length (coxia_to_foot_vector2d h i)

/-- theta (case A): law-of-cosines angle opposite the tibia, given sides d
and femur (the source's angle_opposite_of_last_side(d, femur, tibia)). -/
noncomputable def thetaA (h : Hexapod) (i : Fin 6) : ℝ :=
  angle_opposite_of_last_side (coxia_to_foot_length h i) h.femur h.tibia

/-- phi (case A): angle between the planar coxia-to-foot vector and the leg
frame's x axis (the loop-local x_axis = Point(1, 0, 0)). -/
noncomputable def phiA (h : Hexapod) (i : Fin 6) : ℝ :=
  angle_between (coxia_to_foot_vector2d h i) ⟨1, 0, 0⟩

/-- beta in case A: theta - phi, or theta + phi when the local foot is above
the coxia joint (p3.z > 0). -/
noncomputable def betaA (h : Hexapod) (i : Fin 6) : ℝ :=
  if (p3_local h i).z > 0 then thetaA h i + phiA h i else thetaA h i - phiA h i

/-- p2 (the tibia joint) in case A, from beta and the femur length. -/
noncomputable def p2A (h : Hexapod) (i : Fin 6) : Point :=
  ⟨(p1_local h).x + h.femur * cosd (betaA h i), 0, h.femur * sind (betaA h i)⟩

/-- gamma in case A: 90 minus the angle between the femur vector (p1 to p2)
and the tibia vector (p2 to p3). -/
noncomputable def gammaA (h : Hexapod) (i : Fin 6) : ℝ :=
  90 - angle_between (vector_from_to (p1_local h) (p2A h i))
    (vector_from_to (p2A h i) (p3_local h i))

/-- femur_tibia_direction (case B): unit planar coxia-to-foot direction. -/
noncomputable def femur_tibia_direction (h : Hexapod) (i : Fin 6) : Point :=
  get_unit_vector (coxia_to_foot_vector2d h i)

/-- The femur vector in case B: the unit direction scaled by the femur. -/
noncomputable def femur_vectorB (h : Hexapod) (i : Fin 6) : Point :=
  scalar_multiply (femur_tibia_direction h i) h.femur

/-- p2 in case B: p1 plus the extended femur vector. -/
noncomputable def p2B (h : Hexapod) (i : Fin 6) : Point :=
  add_vectors (p1_local h) (femur_vectorB h i)

/-- The tibia vector in case B: the unit direction scaled by the tibia. -/
noncomputable def tibia_vectorB (h : Hexapod) (i : Fin 6) : Point :=
  scalar_multiply (femur_tibia_direction h i) h.tibia

/-- p3 in case B: p2 plus the extended tibia vector. -/
noncomputable def p3B (h : Hexapod) (i : Fin 6) : Point :=
  add_vectors (p2B h i) (tibia_vectorB h i)

/-- beta in case B: the angle between the leg x axis and the extended femur
vector, negated when the femur vector points downward. -/
noncomputable def betaB (h : Hexapod) (i : Fin 6) : ℝ :=
  if (femur_vectorB h i).z < 0 then -(angle_between ⟨1, 0, 0⟩ (femur_vectorB h i))
  else angle_between ⟨1, 0, 0⟩ (femur_vectorB h i)

/-- The per-leg solution carried out of one loop iteration: the four
local-frame points, the three reported angles, the geometric twist used by
the frame composer, and the updated list of airborne legs. -/
structure LegSolve where
  p0 : Point
  p1 : Point
  p2 : Point
  p3 : Point
  alpha : ℝ
  beta : ℝ
  gamma : ℝ
  twist : ℝ
  airborne : List String

/-- The geometric leg twist (source line 281): the first component of
find_twist_frame at the leg's unit coxia direction. -/
noncomputable def twistOf (h : Hexapod) (i : Fin 6) : ℝ :=
  (find_twist_frame h (unit_coxia_vec h i)).1

/-- The reported coxia angle alpha (source line 282): the twist corrected by
the leg's static mounting-angle offset and wrapped. -/
noncomputable def alphaOf (h : Hexapod) (i : Fin 6) : ℝ :=
  compute_twist_wrt_to_world (twistOf h i) (h.coxiaAxes i)

/-- The tail of one loop iteration shared by cases A and B (source lines
272–312 up to the pose write): the beta/gamma range check, then alpha via
find_twist_frame and compute_twist_wrt_to_world, then the alpha range
check.  The source tests the returned boolean; the alert option is some
exactly when that boolean is true, so matching on the option is
equivalent. -/
noncomputable def leg_tail (cfg : Settings) (h : Hexapod) (i : Fin 6)
    (leg_name : String) (p0 p1 p2 p3 : Point) (beta gamma : ℝ)
    (airborne : List String) : Except Alert LegSolve :=
  match (beta_gamma_not_within_range cfg beta gamma leg_name).2 with
  | some alert_msg => Except.error alert_msg
  | none =>
    match (angle_above_limit (alphaOf h i) cfg.ALPHA_MAX_ANGLE leg_name
        "coxia angle (alpha)").2 with
    | some alert_msg => Except.error alert_msg
    | none =>
      Except.ok ⟨p0, p1, p2, p3, alphaOf h i, beta, gamma, twistOf h i, airborne⟩

/-- One iteration of the six-leg loop of inverse_kinematics_update (source
lines 166–312), as a fallible computation: an error is the alert that makes
the whole request return the detached snapshot. -/
noncomputable def leg_step (cfg : Settings) (h : Hexapod) (i : Fin 6)
    (legs_up_in_the_air : List String) : Except Alert LegSolve :=
  let leg_name := (h.legs i).name
  if (coxia_joint h i).z < ((h.legs i).foot_tip).z then
    Except.error Alert.coxiaJointShovedOnGround
  else
    let p0 : Point := ⟨0, 0, 0⟩
    if is_triangle h.tibia h.femur (coxia_to_foot_length h i) then
      if (p2A h i).z < (p3_local h i).z then
        Except.error (Alert.groundBlocking leg_name)
      else
        leg_tail cfg h i leg_name p0 (p1_local h) (p2A h i) (p3_local h i)
          (betaA h i) (gammaA h i) legs_up_in_the_air
    else
      if coxia_to_foot_length h i + h.tibia < h.femur then
        Except.error (Alert.femurTooLong leg_name)
      else if coxia_to_foot_length h i + h.femur < h.tibia then
        Except.error (Alert.tibiaTooLong leg_name)
      else
        let airborne := legs_up_in_the_air ++ [leg_name]
        match (legs_too_short airborne).2 with
        | some msg => Except.error msg
        | none =>
          leg_tail cfg h i leg_name p0 (p1_local h) (p2B h i) (p3B h i)
            (betaB h i) (0 : ℝ) airborne

/-- The frame composer (source lines 296–302): twist rotation about z, then
the body's rotation frame, then translation by the body-mount point. -/
noncomputable def to_world (h : Hexapod) (i : Fin 6) (tw : ℝ) (p : Point) : Point :=
  let q := h.body_rotation_frame (rotz_apply tw p)
  ⟨q.x + (h.bodyVertices i).x, q.y + (h.bodyVertices i).y, q.z + (h.bodyVertices i).z⟩

/-- The outcome of one call to inverse_kinematics_update.  `returned` is
the hexapod value the call returns; `live` is the final state of the
caller's mutable instance (the same value as `returned` exactly when the
source returns the live object); `table` is the final state of the
module-level pose table, and `poses` is the returned pose dictionary
(the shared table on success, absent on failure). -/
structure IKOutput where
  returned : Hexapod
  live : Hexapod
  poses : Option PosesTable
  alert : Option Alert
  table : PosesTable

/-- The six-leg loop (source lines 166–315): on a leg's failure, return the
detached snapshot with the alert; on success, write the world-frame points
into the live hexapod and the three angles into the pose table, then
continue; after the last leg return the live hexapod and the table. -/
noncomputable def ik_loop (cfg : Settings) (detached : Hexapod) (h : Hexapod)
    (table : PosesTable) (airborne : List String) : List (Fin 6) → IKOutput
  | [] => ⟨h, h, some table, none, table⟩
  | i :: rest =>
    match leg_step cfg h i airborne with
    | Except.error a => ⟨detached, h, none, some a, table⟩
    | Except.ok s =>
      let pts := (to_world h i s.twist s.p0, to_world h i s.twist s.p1,
                  to_world h i s.twist s.p2, to_world h i s.twist s.p3)
      let h2 := update_hexapod_points h i pts
      let table2 := Function.update table i ⟨s.alpha, s.beta, s.gamma⟩
      ik_loop cfg detached h2 table2 s.airborne rest

/-- The fixed leg order 0..5 of the source's for loop. -/
def legIndices : List (Fin 6) := [0, 1, 2, 3, 4, 5]

/-- inverse_kinematics_update (source lines 141–315).  The stance update
and the rigid body rotation/translation (source lines 143–153) live in the
external robot model; they are modelled from the spec as the `transform`
argument, applied to the live hexapod before the detached deep-copy
snapshot is taken.  The module-level pose table is threaded as explicit
state (`table` in, `IKOutput.table` out). -/
noncomputable def inverse_kinematics_update (cfg : Settings)
    (transform : Hexapod → Hexapod) (hexapod : Hexapod)
    (table : PosesTable) : IKOutput :=
  let h := transform hexapod
  let detached := h
  if body_contact_shoved_on_ground h then
    ⟨detached, h, none, some Alert.bodyContactShovedOnGround, table⟩
  else
    ik_loop cfg detached h table [] legIndices


/-!  Concrete fixtures used to witness the theorems on explicit inputs. -/

/-- Joint coordinates of the fixture legs before the request (arbitrary,
distinct from anything the solver writes). -/
def junkPoint : Point := ⟨9, 9, 9⟩

/-- A fixture leg: named, junk joints, a prescribed foot tip. -/
def mkLeg (nm : String) (foot : Point) : Leg :=
  ⟨nm, junkPoint, junkPoint, junkPoint, foot⟩

/-- The six leg names of the robot model, in index order. -/
def testNames : Fin 6 → String
  | 0 => "right-middle"
  | 1 => "right-front"
  | 2 => "left-front"
  | 3 => "left-middle"
  | 4 => "left-back"
  | 5 => "right-back"

/-- A foot target solvable by case A (a 1-1-1 triangle). -/
def footA : Point := ⟨2, 0, 0⟩

/-- A foot target at planar distance exactly femur + tibia (case B,
airborne, fully extended). -/
def footB : Point := ⟨3, 0, 0⟩

/-- A foot target behind the body: case B airborne, and a hip twist of 180
degrees, so that with a 45-degree mounting offset alpha = 135. -/
def footC : Point := ⟨-3, 0, 0⟩

/-- Fixture limits: ALPHA_MAX_ANGLE = 90 as in the spec's range-check
example, generous femur/tibia limits. -/
def cfgTest : Settings := ⟨90, 180, 180⟩

/-- An all-zero incoming pose table. -/
def table0 : PosesTable := fun _ => ⟨0, 0, 0⟩

/-- Fixture hexapod with unit segments, identity orientation, all six feet
at footA: every leg solves through case A and the whole request succeeds. -/
def hexA : Hexapod where
  legs := fun i => mkLeg (testNames i) footA
  bodyVertices := fun _ => ⟨0, 0, 0⟩
  coxiaAxes := fun _ => 0
  coxia := 1
  femur := 1
  tibia := 1
  x_axis := ⟨1, 0, 0⟩
  z_axis := ⟨0, 0, 1⟩
  body_rotation_frame := id

/-- Fixture hexapod whose leg 0 solves (case B, airborne) and whose leg 1
fails the alpha range check with alpha = 135 against the limit 90. -/
def hexC2 : Hexapod where
  legs := fun i => if i = 0 then mkLeg "right-middle" footB else mkLeg (testNames i) footC
  bodyVertices := fun _ => ⟨0, 0, 0⟩
  coxiaAxes := fun i => if i = 0 then 0 else 45
  coxia := 1
  femur := 1
  tibia := 1
  x_axis := ⟨1, 0, 0⟩
  z_axis := ⟨0, 0, 1⟩
  body_rotation_frame := id

/-- Fixture hexapod whose very first leg fails the alpha range check. -/
def hexAlphaFail : Hexapod where
  legs := fun i => mkLeg (testNames i) footC
  bodyVertices := fun _ => ⟨0, 0, 0⟩
  coxiaAxes := fun _ => 45
  coxia := 1
  femur := 1
  tibia := 1
  x_axis := ⟨1, 0, 0⟩
  z_axis := ⟨0, 0, 1⟩
  body_rotation_frame := id

/-- Fixture hexapod whose first mount point is strictly below its foot, so
the body pre-check rejects the request. -/
def hexBodyFail : Hexapod where
  legs := fun i => mkLeg (testNames i) footA
  bodyVertices := fun _ => ⟨0, 0, -1⟩
  coxiaAxes := fun _ => 0
  coxia := 1
  femur := 1
  tibia := 1
  x_axis := ⟨1, 0, 0⟩
  z_axis := ⟨0, 0, 1⟩
  body_rotation_frame := id

/-- A foot target giving a right triangle: planar coxia-to-foot distance
√2 against femur = tibia = 1, so the law-of-cosines angle opposite the
tibia (45°) differs from the angle opposite d (90°). -/
noncomputable def footD : Point := ⟨1 + Real.sqrt 2, 0, 0⟩

/-- Fixture hexapod with all feet at footD. -/
noncomputable def hexD : Hexapod where
  legs := fun i => mkLeg (testNames i) footD
  bodyVertices := fun _ => ⟨0, 0, 0⟩
  coxiaAxes := fun _ => 0
  coxia := 1
  femur := 1
  tibia := 1
  x_axis := ⟨1, 0, 0⟩
  z_axis := ⟨0, 0, 1⟩
  body_rotation_frame := id

/-- The loop's successful prefix, as a relation: LoopSolves cfg h ab l j s
holds when running the six-leg loop from live state h with airborne list ab
over the remaining legs l reaches leg j and solves it with result s — every
leg before j in l succeeded, with the live hexapod and airborne list
threaded exactly as ik_loop threads them.  A call that fails after k legs
have been solved satisfies this relation for each of those k legs. -/
inductive LoopSolves (cfg : Settings) :
    Hexapod → List String → List (Fin 6) → Fin 6 → LegSolve → Prop where
  | head : ∀ (h : Hexapod) (ab : List String) (i : Fin 6) (rest : List (Fin 6))
      (s : LegSolve),
      leg_step cfg h i ab = Except.ok s →
      LoopSolves cfg h ab (i :: rest) i s
  | tail : ∀ (h : Hexapod) (ab : List String) (i : Fin 6) (rest : List (Fin 6))
      (j : Fin 6) (s t : LegSolve),
      leg_step cfg h i ab = Except.ok t →
      LoopSolves cfg
        (update_hexapod_points h i
          (to_world h i t.twist t.p0, to_world h i t.twist t.p1,
           to_world h i t.twist t.p2, to_world h i t.twist t.p3))
        t.airborne rest j s →
      LoopSolves cfg h ab (i :: rest) j s

/-- Fixture hexapod whose legs 0 and 1 solve (case B, airborne) and whose
leg 2 fails the alpha range check with alpha = 135 against the limit 90:
a request that fails after two legs have been solved. -/
def hexC3 : Hexapod where
  legs := fun i =>
    if i = 0 then mkLeg "right-middle" footB
    else if i = 1 then mkLeg "right-front" footB
    else mkLeg (testNames i) footC
  bodyVertices := fun _ => ⟨0, 0, 0⟩
  coxiaAxes := fun i => if i = 0 then 0 else if i = 1 then 0 else 45
  coxia := 1
  femur := 1
  tibia := 1
  x_axis := ⟨1, 0, 0⟩
  z_axis := ⟨0, 0, 1⟩
  body_rotation_frame := id

/-!  Characterizations of the validators. -/

/-- angle_above_limit unfolded: the alert carries the angle name, the leg
name, the required value and the limit. -/
theorem angle_above_limit_eq (a r : ℝ) (ln an : String) :
    angle_above_limit a r ln an =
      if |a| > r then (true, some (Alert.aboveRangeOfMotion an ln a r))
      else (false, none) := rfl

/-- The range check fires exactly when the absolute value of the angle
strictly exceeds the limit. -/
theorem angle_above_limit_fst_iff (a r : ℝ) (ln an : String) :
    (angle_above_limit a r ln an).1 = true ↔ |a| > r := by
  unfold angle_above_limit; split_ifs with h <;> simp [h]

/-- The second component of beta_gamma_not_within_range: beta is checked
first, then gamma. -/
theorem beta_gamma_snd_eq (cfg : Settings) (b g : ℝ) (ln : String) :
    (beta_gamma_not_within_range cfg b g ln).2 =
      if |b| > cfg.BETA_MAX_ANGLE then
        some (Alert.aboveRangeOfMotion "beta angle (beta)" ln b cfg.BETA_MAX_ANGLE)
      else if |g| > cfg.GAMMA_MAX_ANGLE then
        some (Alert.aboveRangeOfMotion "gamma angle (gamma)" ln g cfg.GAMMA_MAX_ANGLE)
      else none := by
  unfold beta_gamma_not_within_range angle_above_limit
  split_ifs <;> rfl

/-- The beta/gamma pair check fires exactly when one of the two angles
strictly exceeds its limit. -/
theorem angle_above_limit_snd_eq (a r : ℝ) (ln an : String) :
    (angle_above_limit a r ln an).2 =
      if |a| > r then some (Alert.aboveRangeOfMotion an ln a r) else none := by
  unfold angle_above_limit; split_ifs <;> rfl

/-- The beta/gamma pair check fires exactly when one of the two angles
strictly exceeds its limit. -/
theorem beta_gamma_fst_iff (cfg : Settings) (b g : ℝ) (ln : String) :
    (beta_gamma_not_within_range cfg b g ln).1 = true ↔
      |b| > cfg.BETA_MAX_ANGLE ∨ |g| > cfg.GAMMA_MAX_ANGLE := by
  unfold beta_gamma_not_within_range angle_above_limit
  by_cases h1 : |b| > cfg.BETA_MAX_ANGLE <;> by_cases h2 : |g| > cfg.GAMMA_MAX_ANGLE <;>
    simp [h1, h2]

/-- The stability check as a predicate: four or more airborne legs, or
exactly three all of whose name prefixes are "left", or all "right". -/
theorem legs_too_short_fst_iff (legs : List String) :
    (legs_too_short legs).1 = true ↔
      4 ≤ legs.length ∨ (legs.length = 3 ∧
        ((legs.map leg_position).count "left" = 3 ∨
         (legs.map leg_position).count "right" = 3)) := by
  unfold legs_too_short
  by_cases h1 : legs.length ≥ 4 <;> by_cases h2 : legs.length = 3 <;>
    by_cases h3 : (legs.map leg_position).count "left" = 3 <;>
    by_cases h4 : (legs.map leg_position).count "right" = 3 <;>
    simp [h1, h2, h3, h4]

/-- The stability check returns an alert exactly when it fires. -/
theorem legs_too_short_snd_none_iff (legs : List String) :
    (legs_too_short legs).2 = none ↔ (legs_too_short legs).1 = false := by
  unfold legs_too_short
  by_cases h1 : legs.length ≥ 4 <;> by_cases h2 : legs.length = 3 <;>
    by_cases h3 : (legs.map leg_position).count "left" = 3 <;>
    by_cases h4 : (legs.map leg_position).count "right" = 3 <;>
    simp [h1, h2, h3, h4]

/-- The tail of a loop iteration, unfolded: beta check, then gamma check,
then the alpha computation and check, then success. -/
theorem leg_tail_eq (cfg : Settings) (h : Hexapod) (i : Fin 6) (ln : String)
    (q0 q1 q2 q3 : Point) (b g : ℝ) (ab : List String) :
    leg_tail cfg h i ln q0 q1 q2 q3 b g ab =
      if |b| > cfg.BETA_MAX_ANGLE then
        Except.error (Alert.aboveRangeOfMotion "beta angle (beta)" ln b cfg.BETA_MAX_ANGLE)
      else if |g| > cfg.GAMMA_MAX_ANGLE then
        Except.error (Alert.aboveRangeOfMotion "gamma angle (gamma)" ln g cfg.GAMMA_MAX_ANGLE)
      else if |alphaOf h i| > cfg.ALPHA_MAX_ANGLE then
        Except.error
          (Alert.aboveRangeOfMotion "coxia angle (alpha)" ln (alphaOf h i) cfg.ALPHA_MAX_ANGLE)
      else Except.ok ⟨q0, q1, q2, q3, alphaOf h i, b, g, twistOf h i, ab⟩ := by
  unfold leg_tail
  rw [beta_gamma_snd_eq, angle_above_limit_snd_eq]
  split_ifs <;> rfl

/-- A loop iteration in case A, given that the coxia-joint check passed and
the triangle can be formed. -/
theorem leg_step_caseA (cfg : Settings) (h : Hexapod) (i : Fin 6) (ab : List String)
    (hc : ¬ (coxia_joint h i).z < ((h.legs i).foot_tip).z)
    (ht : is_triangle h.tibia h.femur (coxia_to_foot_length h i)) :
    leg_step cfg h i ab =
      if (p2A h i).z < (p3_local h i).z then
        Except.error (Alert.groundBlocking (h.legs i).name)
      else
        leg_tail cfg h i (h.legs i).name ⟨0, 0, 0⟩ (p1_local h) (p2A h i) (p3_local h i)
          (betaA h i) (gammaA h i) ab := by
  unfold leg_step
  rw [if_neg hc, if_pos ht]

/-- A loop iteration in case B, given that the coxia-joint check passed and
the triangle cannot be formed. -/
theorem leg_step_caseB (cfg : Settings) (h : Hexapod) (i : Fin 6) (ab : List String)
    (hc : ¬ (coxia_joint h i).z < ((h.legs i).foot_tip).z)
    (ht : ¬ is_triangle h.tibia h.femur (coxia_to_foot_length h i)) :
    leg_step cfg h i ab =
      if coxia_to_foot_length h i + h.tibia < h.femur then
        Except.error (Alert.femurTooLong (h.legs i).name)
      else if coxia_to_foot_length h i + h.femur < h.tibia then
        Except.error (Alert.tibiaTooLong (h.legs i).name)
      else
        match (legs_too_short (ab ++ [(h.legs i).name])).2 with
        | some msg => Except.error msg
        | none =>
          leg_tail cfg h i (h.legs i).name ⟨0, 0, 0⟩ (p1_local h) (p2B h i) (p3B h i)
            (betaB h i) (0 : ℝ) (ab ++ [(h.legs i).name]) := by
  unfold leg_step
  rw [if_neg hc, if_neg ht]

/-!  The orchestration contract. -/

/-- Loop invariant: either the loop finished with the live hexapod, the
shared table as poses and no alert, or it stopped early with the detached
snapshot, no poses and some alert. -/
theorem ik_loop_contract (cfg : Settings) (l : List (Fin 6)) :
    ∀ det h table ab,
      (let r := ik_loop cfg det h table ab l;
        (r.poses = some r.table ∧ r.alert = none ∧ r.returned = r.live) ∨
        (r.poses = none ∧ (∃ a, r.alert = some a) ∧ r.returned = det)) := by
  induction l with
  | nil => intro det h table ab; left; exact ⟨rfl, rfl, rfl⟩
  | cons i rest ih =>
    intro det h table ab
    cases hstep : leg_step cfg h i ab with
    | error a => simp [ik_loop, hstep]
    | ok s =>
      simp only [ik_loop, hstep]
      exact ih det _ _ _

/-- C1: the result of inverse_kinematics_update has exactly one of
poses/alert: on success the returned poses are the full 18-angle table, the
alert is null and the returned hexapod is the same (mutated) live instance;
on any failure the returned hexapod is the detached deep-copy snapshot
taken right after the body transform, the poses are null and the alert is
non-null.  Success holds exactly when the body pre-check and all six legs'
checks pass (the six-leg loop reports no alert). -/
theorem C1_contract (cfg : Settings) (transform : Hexapod → Hexapod)
    (hexapod : Hexapod) (table : PosesTable) :
    (let r := inverse_kinematics_update cfg transform hexapod table;
      ((r.poses = some r.table ∧ r.alert = none ∧ r.returned = r.live) ∨
        (r.poses = none ∧ (∃ a, r.alert = some a) ∧ r.returned = transform hexapod)) ∧
      (r.alert = none ↔
        ¬ body_contact_shoved_on_ground (transform hexapod) ∧
          (ik_loop cfg (transform hexapod) (transform hexapod) table []
            legIndices).alert = none)) := by
  simp only [inverse_kinematics_update]
  split_ifs with hb
  · exact ⟨Or.inr ⟨rfl, ⟨_, rfl⟩, rfl⟩, by simp [hb]⟩
  · exact ⟨ik_loop_contract cfg legIndices _ _ _ _, by simp [hb]⟩

/-!  The twist computation (C7). -/

/-- pymod is nonnegative for a positive modulus. -/
theorem pymod_nonneg (x m : ℝ) (hm : 0 < m) : 0 ≤ pymod x m := by
  unfold pymod
  have h1 : (⌊x / m⌋ : ℝ) ≤ x / m := Int.floor_le _
  have h2 : m * (⌊x / m⌋ : ℝ) ≤ m * (x / m) := by
    exact mul_le_mul_of_nonneg_left h1 (le_of_lt hm)
  have h3 : m * (x / m) = x := by field_simp
  linarith

/-- pymod is below a positive modulus. -/
theorem pymod_lt (x m : ℝ) (hm : 0 < m) : pymod x m < m := by
  unfold pymod
  have h1 : x / m < (⌊x / m⌋ : ℝ) + 1 := Int.lt_floor_add_one _
  have h2 : m * (x / m) < m * ((⌊x / m⌋ : ℝ) + 1) := by
    exact mul_lt_mul_of_pos_left h1 hm
  have h3 : m * (x / m) = x := by field_simp
  nlinarith

/-- arccosd lies in [0, 180]. -/
theorem arccosd_mem (t : ℝ) : 0 ≤ arccosd t ∧ arccosd t ≤ 180 := by
  unfold arccosd degrees
  constructor
  · have h1 : 0 ≤ Real.arccos t := Real.arccos_nonneg t
    have h2 : (0:ℝ) < 180 / π := by positivity
    nlinarith
  · have h1 : Real.arccos t ≤ π := Real.arccos_le_pi t
    have h2 : (0:ℝ) < 180 / π := by positivity
    have h3 : π * (180 / π) = 180 := by field_simp
    nlinarith

/-- angle_between lies in [0, 180]. -/
theorem angle_between_mem (a b : Point) :
    0 ≤ angle_between a b ∧ angle_between a b ≤ 180 :=
  arccosd_mem _

/-- compute_twist_wrt_to_world lands in the half-open interval (-180, 180]
and is congruent to alpha - coxia_axis modulo 360. -/
theorem compute_twist_spec (alpha coxia_axis : ℝ) :
    (-180 < compute_twist_wrt_to_world alpha coxia_axis ∧
      compute_twist_wrt_to_world alpha coxia_axis ≤ 180) ∧
    (∃ k : ℤ, compute_twist_wrt_to_world alpha coxia_axis =
      alpha - coxia_axis - 360 * k) := by
  unfold compute_twist_wrt_to_world
  have h0 : (0:ℝ) ≤ pymod (alpha - coxia_axis) 360 := pymod_nonneg _ _ (by norm_num)
  have h1 : pymod (alpha - coxia_axis) 360 < 360 := pymod_lt _ _ (by norm_num)
  have hk : pymod (alpha - coxia_axis) 360 =
      alpha - coxia_axis - 360 * (⌊(alpha - coxia_axis) / 360⌋ : ℤ) := by
    unfold pymod; ring
  split_ifs with ha hb
  · refine ⟨⟨by linarith, by linarith⟩, ⟨⌊(alpha - coxia_axis) / 360⌋ + 1, ?_⟩⟩
    rw [hk]; push_cast; ring
  · exact absurd hb (by linarith)
  · exact ⟨⟨by linarith, by linarith⟩, ⟨⌊(alpha - coxia_axis) / 360⌋, by rw [hk]⟩⟩

/-- C7: the reported coxia angle.  The geometric twist is the unsigned
angle between the leg's ground-plane direction and the body's x axis (a
value in [0, 180]), negated exactly when the counter-clockwise orientation
test of (leg direction, body x axis, body z axis) holds — i.e. when the leg
direction is clockwise from the body axis; alpha is that twist minus the
leg's static mounting-angle offset, wrapped modulo 360 into (-180, 180]. -/
theorem C7_alpha (h : Hexapod) (i : Fin 6) :
    (twistOf h i =
      if is_counter_clockwise (unit_coxia_vec h i) h.x_axis h.z_axis
      then -(angle_between (unit_coxia_vec h i) h.x_axis)
      else angle_between (unit_coxia_vec h i) h.x_axis) ∧
    (0 ≤ angle_between (unit_coxia_vec h i) h.x_axis ∧
      angle_between (unit_coxia_vec h i) h.x_axis ≤ 180) ∧
    (-180 < alphaOf h i ∧ alphaOf h i ≤ 180) ∧
    (∃ k : ℤ, alphaOf h i = twistOf h i - h.coxiaAxes i - 360 * k) := by
  refine ⟨rfl, angle_between_mem _ _, ?_, ?_⟩
  · exact (compute_twist_spec (twistOf h i) (h.coxiaAxes i)).1
  · exact (compute_twist_spec (twistOf h i) (h.coxiaAxes i)).2

/-!  The body pre-check (C9). -/

/-- The stability alert is one of the three instability constructors. -/
theorem legs_too_short_snd_shape (legs : List String) (a : Alert) :
    (legs_too_short legs).2 = some a →
      a = Alert.tooManyLegsOff legs ∨ a = Alert.allLeftLegsOff legs ∨
        a = Alert.allRightLegsOff legs := by
  unfold legs_too_short
  by_cases h1 : legs.length ≥ 4 <;> by_cases h2 : legs.length = 3 <;>
    by_cases h3 : (legs.map leg_position).count "left" = 3 <;>
    by_cases h4 : (legs.map leg_position).count "right" = 3 <;>
    simp [h1, h2, h3, h4] <;> intro hh <;> simp [hh]

/-- The shared iteration tail never produces the body-contact alert. -/
theorem leg_tail_ne_body (cfg : Settings) (h : Hexapod) (i : Fin 6) (ln : String)
    (q0 q1 q2 q3 : Point) (b g : ℝ) (ab : List String) :
    leg_tail cfg h i ln q0 q1 q2 q3 b g ab ≠
      Except.error Alert.bodyContactShovedOnGround := by
  rw [leg_tail_eq]
  split_ifs <;> simp

/-- A loop iteration never produces the body-contact alert: that alert
belongs to the pre-check alone. -/
theorem leg_step_ne_body (cfg : Settings) (h : Hexapod) (i : Fin 6) (ab : List String) :
    leg_step cfg h i ab ≠ Except.error Alert.bodyContactShovedOnGround := by
  unfold leg_step
  by_cases hc : (coxia_joint h i).z < ((h.legs i).foot_tip).z
  · simp [hc]
  · rw [if_neg hc]
    by_cases ht : is_triangle h.tibia h.femur (coxia_to_foot_length h i)
    · rw [if_pos ht]
      by_cases hg : (p2A h i).z < (p3_local h i).z
      · simp [hg]
      · rw [if_neg hg]; exact leg_tail_ne_body cfg h i _ _ _ _ _ _ _ ab
    · rw [if_neg ht]
      by_cases hf : coxia_to_foot_length h i + h.tibia < h.femur
      · simp [hf]
      · rw [if_neg hf]
        by_cases hti : coxia_to_foot_length h i + h.femur < h.tibia
        · simp [hti]
        · rw [if_neg hti]
          cases hls : (legs_too_short (ab ++ [(h.legs i).name])).2 with
          | none =>
            simpa [hls] using leg_tail_ne_body cfg h i _ _ _ _ _ _ _
              (ab ++ [(h.legs i).name])
          | some a =>
            simp only [hls]
            intro hh
            have ha : a = Alert.bodyContactShovedOnGround := by
              simpa using hh
            rcases legs_too_short_snd_shape _ a hls with h1 | h1 | h1 <;>
              simp [h1] at ha
/-- The six-leg loop never reports the body-contact alert. -/
theorem ik_loop_no_body_alert (cfg : Settings) (l : List (Fin 6)) :
    ∀ det h table ab,
      (ik_loop cfg det h table ab l).alert ≠ some Alert.bodyContactShovedOnGround := by
  induction l with
  | nil => intro det h table ab; simp [ik_loop]
  | cons i rest ih =>
    intro det h table ab
    cases hstep : leg_step cfg h i ab with
    | error a =>
      simp only [ik_loop, hstep]
      intro hh
      have ha : a = Alert.bodyContactShovedOnGround := by simpa using hh
      exact absurd (ha ▸ hstep) (leg_step_ne_body cfg h i ab)
    | ok s =>
      simp only [ik_loop, hstep]
      exact ih det _ _ _

/-- C9 (amended): the request is rejected with the body-level
body-contact-shoved-on-ground alert, before any per-leg solving, exactly
when some leg's body-mount point has z STRICTLY below its own foot tip's z;
a mount point exactly at its foot's height does not trigger this check. -/
theorem C9_body_precheck (cfg : Settings) (transform : Hexapod → Hexapod)
    (hexapod : Hexapod) (table : PosesTable) :
    (let r := inverse_kinematics_update cfg transform hexapod table;
      (r.alert = some Alert.bodyContactShovedOnGround ↔
        ∃ i : Fin 6, ((transform hexapod).bodyVertices i).z <
          (((transform hexapod).legs i).foot_tip).z) ∧
      (body_contact_shoved_on_ground (transform hexapod) →
        r.live = transform hexapod ∧ r.poses = none)) := by
  simp only [inverse_kinematics_update]
  split_ifs with hb
  · exact ⟨⟨fun _ => hb, fun _ => rfl⟩, fun _ => ⟨rfl, rfl⟩⟩
  · refine ⟨⟨fun hh => absurd hh (ik_loop_no_body_alert cfg legIndices _ _ _ _),
      fun hx => absurd hx hb⟩, fun hx => absurd hx hb⟩

/-- Witness for C9 at a concrete input: hexBodyFail's mount points (z = -1)
are strictly below their feet (z = 0), and the call is rejected before
per-leg solving with nothing mutated. -/
theorem C9_body_precheck_witness :
    body_contact_shoved_on_ground hexBodyFail ∧
    (let r := inverse_kinematics_update cfgTest id hexBodyFail table0;
      r.alert = some Alert.bodyContactShovedOnGround ∧
      r.live = hexBodyFail ∧ r.poses = none) := by
  have hb : body_contact_shoved_on_ground hexBodyFail := by
    refine ⟨0, ?_⟩
    simp [hexBodyFail, mkLeg, footA, Leg.foot_tip]
  have hmain := C9_body_precheck cfgTest id hexBodyFail table0
  exact ⟨hb, (hmain.1.mpr hb), (hmain.2 hb).1, (hmain.2 hb).2⟩

/-!  The range-of-motion checks (C8). -/

/-- C8: a range check rejects exactly when the angle's absolute value
STRICTLY exceeds its configured maximum (an angle exactly at the limit
passes), the alert names the angle, the leg, the required value and the
limit; and within one leg iteration beta and gamma are checked as a pair
(beta first) before alpha is computed and checked, the first violation
producing the abort. -/
theorem C8_range_of_motion (cfg : Settings) (h : Hexapod) (i : Fin 6)
    (ln an : String) (q0 q1 q2 q3 : Point) (a r b g : ℝ) (ab : List String) :
    ((angle_above_limit a r ln an).1 = true ↔ |a| > r) ∧
    ((angle_above_limit a r ln an).2 =
      if |a| > r then some (Alert.aboveRangeOfMotion an ln a r) else none) ∧
    (leg_tail cfg h i ln q0 q1 q2 q3 b g ab =
      if |b| > cfg.BETA_MAX_ANGLE then
        Except.error (Alert.aboveRangeOfMotion "beta angle (beta)" ln b cfg.BETA_MAX_ANGLE)
      else if |g| > cfg.GAMMA_MAX_ANGLE then
        Except.error (Alert.aboveRangeOfMotion "gamma angle (gamma)" ln g cfg.GAMMA_MAX_ANGLE)
      else if |alphaOf h i| > cfg.ALPHA_MAX_ANGLE then
        Except.error (Alert.aboveRangeOfMotion "coxia angle (alpha)" ln (alphaOf h i)
          cfg.ALPHA_MAX_ANGLE)
      else Except.ok ⟨q0, q1, q2, q3, alphaOf h i, b, g, twistOf h i, ab⟩) :=
  ⟨angle_above_limit_fst_iff a r ln an, angle_above_limit_snd_eq a r ln an,
    leg_tail_eq cfg h i ln q0 q1 q2 q3 b g ab⟩

/-!  The stability check (C6). -/

/-- C6: the stability check fails exactly when 4 or more legs are airborne,
or exactly 3 are and all three names have the same side prefix (all
"left" or all "right"); a list of exactly 2 airborne legs always passes;
and the check runs right after each airborne leg is recorded — inside the
very leg iteration that recorded it, which aborts with the stability alert
the moment the list first violates the rule. -/
theorem C6_stability :
    (∀ legs : List String,
      (legs_too_short legs).1 = true ↔
        4 ≤ legs.length ∨ (legs.length = 3 ∧
          ((legs.map leg_position).count "left" = 3 ∨
           (legs.map leg_position).count "right" = 3))) ∧
    (∀ legs : List String, legs.length = 2 → (legs_too_short legs).1 = false) ∧
    (∀ (cfg : Settings) (h : Hexapod) (i : Fin 6) (ab : List String) (msg : Alert),
      ¬ (coxia_joint h i).z < ((h.legs i).foot_tip).z →
      ¬ is_triangle h.tibia h.femur (coxia_to_foot_length h i) →
      ¬ coxia_to_foot_length h i + h.tibia < h.femur →
      ¬ coxia_to_foot_length h i + h.femur < h.tibia →
      (legs_too_short (ab ++ [(h.legs i).name])).2 = some msg →
      leg_step cfg h i ab = Except.error msg) := by
  refine ⟨legs_too_short_fst_iff, ?_, ?_⟩
  · intro legs h2
    rw [← Bool.not_eq_true, legs_too_short_fst_iff]
    simp [h2]
  · intro cfg h i ab msg hc ht hf hti hls
    rw [leg_step_caseB cfg h i ab hc ht, if_neg hf, if_neg hti, hls]

/-!  Case B: the unreachable / fully-extended leg (C4, C5). -/

/-- Taking the vector from a point to that point translated by t recovers t. -/
theorem vector_from_to_add_vectors (a t : Point) :
    vector_from_to a (add_vectors a t) = t := by
  cases a; cases t
  simp only [vector_from_to, add_vectors, Point.mk.injEq]
  refine ⟨by ring, by ring, by ring⟩

/-- The shared iteration tail either succeeds or reports a range-of-motion
alert. -/
theorem leg_tail_shape (cfg : Settings) (h : Hexapod) (i : Fin 6) (ln : String)
    (q0 q1 q2 q3 : Point) (b g : ℝ) (ab : List String) :
    (leg_tail cfg h i ln q0 q1 q2 q3 b g ab =
      Except.ok ⟨q0, q1, q2, q3, alphaOf h i, b, g, twistOf h i, ab⟩) ∨
    (∃ an req lim, leg_tail cfg h i ln q0 q1 q2 q3 b g ab =
      Except.error (Alert.aboveRangeOfMotion an ln req lim)) := by
  rw [leg_tail_eq]
  split_ifs
  · exact Or.inr ⟨_, _, _, rfl⟩
  · exact Or.inr ⟨_, _, _, rfl⟩
  · exact Or.inr ⟨_, _, _, rfl⟩
  · exact Or.inl rfl

/-- In case B with both too-long checks passed, a successful iteration
reports gamma = 0, beta as the extended-femur angle, the fully-extended
local points, and the leg recorded airborne. -/
theorem leg_step_caseB_ok (cfg : Settings) (h : Hexapod) (i : Fin 6)
    (ab : List String) (s : LegSolve)
    (hc : ¬ (coxia_joint h i).z < ((h.legs i).foot_tip).z)
    (ht : ¬ is_triangle h.tibia h.femur (coxia_to_foot_length h i))
    (hstep : leg_step cfg h i ab = Except.ok s) :
    s.p0 = ⟨0, 0, 0⟩ ∧ s.p1 = p1_local h ∧ s.p2 = p2B h i ∧ s.p3 = p3B h i ∧
    s.alpha = alphaOf h i ∧ s.beta = betaB h i ∧ s.gamma = 0 ∧
    s.airborne = ab ++ [(h.legs i).name] := by
  rw [leg_step_caseB cfg h i ab hc ht] at hstep
  by_cases hf : coxia_to_foot_length h i + h.tibia < h.femur
  · rw [if_pos hf] at hstep; simp at hstep
  · rw [if_neg hf] at hstep
    by_cases hti : coxia_to_foot_length h i + h.femur < h.tibia
    · rw [if_pos hti] at hstep; simp at hstep
    · rw [if_neg hti] at hstep
      cases hls : (legs_too_short (ab ++ [(h.legs i).name])).2 with
      | some a => rw [hls] at hstep; simp at hstep
      | none =>
        rw [hls] at hstep
        rcases leg_tail_shape cfg h i (h.legs i).name ⟨0, 0, 0⟩ (p1_local h)
            (p2B h i) (p3B h i) (betaB h i) 0 (ab ++ [(h.legs i).name]) with hok | ⟨an, req, lim, herr⟩
        · rw [hok] at hstep
          have hs : s = ⟨⟨0, 0, 0⟩, p1_local h, p2B h i, p3B h i, alphaOf h i,
              betaB h i, 0, twistOf h i, ab ++ [(h.legs i).name]⟩ := by
            simpa using hstep.symm
          rw [hs]
          exact ⟨rfl, rfl, rfl, rfl, rfl, rfl, rfl, rfl⟩
        · rw [herr] at hstep; simp at hstep

/-- C4: in case B, the femur-too-long alert fires exactly when
d + tibia < femur; failing that, the tibia-too-long alert fires exactly
when d + femur < tibia; otherwise the leg is recorded airborne and solved
fully extended: femur and tibia vectors colinear along the unit planar
coxia-to-foot direction, gamma = 0, and beta the angle between the leg
x axis and the extended femur vector, negated when that vector's z is
negative. -/
theorem C4_caseB (cfg : Settings) (h : Hexapod) (i : Fin 6) (ab : List String)
    (hc : ¬ (coxia_joint h i).z < ((h.legs i).foot_tip).z)
    (ht : ¬ is_triangle h.tibia h.femur (coxia_to_foot_length h i)) :
    (leg_step cfg h i ab = Except.error (Alert.femurTooLong (h.legs i).name) ↔
      coxia_to_foot_length h i + h.tibia < h.femur) ∧
    (¬ coxia_to_foot_length h i + h.tibia < h.femur →
      (leg_step cfg h i ab = Except.error (Alert.tibiaTooLong (h.legs i).name) ↔
        coxia_to_foot_length h i + h.femur < h.tibia)) ∧
    (femur_vectorB h i = scalar_multiply (femur_tibia_direction h i) h.femur ∧
      vector_from_to (p2B h i) (p3B h i) = scalar_multiply (femur_tibia_direction h i) h.tibia ∧
      betaB h i = (if (femur_vectorB h i).z < 0
        then -(angle_between ⟨1, 0, 0⟩ (femur_vectorB h i))
        else angle_between ⟨1, 0, 0⟩ (femur_vectorB h i))) ∧
    (∀ s, leg_step cfg h i ab = Except.ok s →
      s.gamma = 0 ∧ s.beta = betaB h i ∧ s.p2 = p2B h i ∧ s.p3 = p3B h i ∧
      s.airborne = ab ++ [(h.legs i).name]) := by
  rw [leg_step_caseB cfg h i ab hc ht]
  refine ⟨?_, ?_, ⟨rfl, vector_from_to_add_vectors _ _, rfl⟩, ?_⟩
  · by_cases hf : coxia_to_foot_length h i + h.tibia < h.femur
    · simp [hf]
    · rw [if_neg hf]
      simp only [hf, iff_false]
      by_cases hti : coxia_to_foot_length h i + h.femur < h.tibia
      · simp [hti]
      · rw [if_neg hti]
        cases hls : (legs_too_short (ab ++ [(h.legs i).name])).2 with
        | some a =>
          intro hh
          have ha : a = Alert.femurTooLong (h.legs i).name := by simpa using hh
          rcases legs_too_short_snd_shape _ a hls with h1 | h1 | h1 <;> simp [h1] at ha
        | none =>
          rcases leg_tail_shape cfg h i (h.legs i).name ⟨0, 0, 0⟩ (p1_local h)
              (p2B h i) (p3B h i) (betaB h i) 0 (ab ++ [(h.legs i).name]) with hok | ⟨an, req, lim, herr⟩
          · rw [hok]; simp
          · rw [herr]; simp
  · intro hf
    rw [if_neg hf]
    by_cases hti : coxia_to_foot_length h i + h.femur < h.tibia
    · simp [hti]
    · rw [if_neg hti]
      simp only [hti, iff_false]
      cases hls : (legs_too_short (ab ++ [(h.legs i).name])).2 with
      | some a =>
        intro hh
        have ha : a = Alert.tibiaTooLong (h.legs i).name := by simpa using hh
        rcases legs_too_short_snd_shape _ a hls with h1 | h1 | h1 <;> simp [h1] at ha
      | none =>
        rcases leg_tail_shape cfg h i (h.legs i).name ⟨0, 0, 0⟩ (p1_local h)
            (p2B h i) (p3B h i) (betaB h i) 0 (ab ++ [(h.legs i).name]) with hok | ⟨an, req, lim, herr⟩
        · rw [hok]; simp
        · rw [herr]; simp
  · intro s hstep
    have hh := leg_step_caseB_ok cfg h i ab s hc ht
      (by rw [leg_step_caseB cfg h i ab hc ht]; exact hstep)
    exact ⟨hh.2.2.2.2.2.2.1, hh.2.2.2.2.2.1, hh.2.2.1, hh.2.2.2.1, hh.2.2.2.2.2.2.2⟩

/-- C5: when the planar coxia-to-foot distance equals femur + tibia exactly
(with nonnegative segment lengths), the triangle test fails and the solver
takes the unreachable/extended path: the leg is marked airborne and any
success reports gamma = 0 with the fully extended foot, not case A's
triangle solution. -/
theorem C5_exact_boundary (cfg : Settings) (h : Hexapod) (i : Fin 6) (ab : List String)
    (hd : coxia_to_foot_length h i = h.femur + h.tibia)
    (hf0 : 0 ≤ h.femur) (ht0 : 0 ≤ h.tibia)
    (hc : ¬ (coxia_joint h i).z < ((h.legs i).foot_tip).z) :
    ¬ is_triangle h.tibia h.femur (coxia_to_foot_length h i) ∧
    leg_step cfg h i ab =
      (match (legs_too_short (ab ++ [(h.legs i).name])).2 with
        | some msg => Except.error msg
        | none =>
          leg_tail cfg h i (h.legs i).name ⟨0, 0, 0⟩ (p1_local h) (p2B h i) (p3B h i)
            (betaB h i) (0 : ℝ) (ab ++ [(h.legs i).name])) ∧
    (∀ s, leg_step cfg h i ab = Except.ok s →
      s.gamma = 0 ∧ s.beta = betaB h i ∧ s.p3 = p3B h i ∧
      s.airborne = ab ++ [(h.legs i).name]) := by
  have ht : ¬ is_triangle h.tibia h.femur (coxia_to_foot_length h i) := by
    intro hh
    have h1 := hh.1
    rw [hd] at h1
    linarith
  refine ⟨ht, ?_, ?_⟩
  · rw [leg_step_caseB cfg h i ab hc ht, if_neg (by rw [hd]; intro hh; linarith),
      if_neg (by rw [hd]; intro hh; linarith)]
  · intro s hstep
    have hh := leg_step_caseB_ok cfg h i ab s hc ht hstep
    exact ⟨hh.2.2.2.2.2.2.1, hh.2.2.2.2.2.1, hh.2.2.2.1, hh.2.2.2.2.2.2.2⟩

/-!  Case A: the triangle solution (C3). -/

/-- C3 (amended): in case A the femur angle is beta = theta - phi when the
local foot is not above the coxia joint (p3.z ≤ 0) and beta = theta + phi
when p3.z > 0, where theta is the law-of-cosines angle OPPOSITE THE TIBIA
(the angle at the coxia joint, angle_opposite_of_last_side(d, femur,
tibia)) — not the angle opposite d — and phi is the angle between the
planar coxia-to-foot vector and the leg x axis; gamma is 90 minus the
angle between the femur and tibia vectors; and the iteration fails with
the ground-blocking alert exactly when the computed tibia joint p2 lies
strictly below p3. -/
theorem C3_caseA_amended (cfg : Settings) (h : Hexapod) (i : Fin 6) (ab : List String)
    (hc : ¬ (coxia_joint h i).z < ((h.legs i).foot_tip).z)
    (ht : is_triangle h.tibia h.femur (coxia_to_foot_length h i)) :
    (thetaA h i = angle_opposite_of_last_side (coxia_to_foot_length h i) h.femur h.tibia) ∧
    ((p3_local h i).z ≤ 0 → betaA h i = thetaA h i - phiA h i) ∧
    ((p3_local h i).z > 0 → betaA h i = thetaA h i + phiA h i) ∧
    (gammaA h i = 90 - angle_between (vector_from_to (p1_local h) (p2A h i))
      (vector_from_to (p2A h i) (p3_local h i))) ∧
    ((∃ nm, leg_step cfg h i ab = Except.error (Alert.groundBlocking nm)) ↔
      (p2A h i).z < (p3_local h i).z) ∧
    (∀ s, leg_step cfg h i ab = Except.ok s →
      s.beta = betaA h i ∧ s.gamma = gammaA h i ∧ s.p2 = p2A h i ∧
      s.p3 = p3_local h i ∧ s.airborne = ab) := by
  rw [leg_step_caseA cfg h i ab hc ht]
  refine ⟨rfl, ?_, ?_, rfl, ?_, ?_⟩
  · intro hz
    unfold betaA
    rw [if_neg (not_lt.mpr hz)]
  · intro hz
    unfold betaA
    rw [if_pos hz]
  · by_cases hg : (p2A h i).z < (p3_local h i).z
    · simp [hg]
    · rw [if_neg hg]
      simp only [hg, iff_false]
      rcases leg_tail_shape cfg h i (h.legs i).name ⟨0, 0, 0⟩ (p1_local h)
          (p2A h i) (p3_local h i) (betaA h i) (gammaA h i) ab with hok | ⟨an, req, lim, herr⟩
      · rw [hok]; simp
      · rw [herr]; simp
  · intro s hstep
    by_cases hg : (p2A h i).z < (p3_local h i).z
    · rw [if_pos hg] at hstep; simp at hstep
    · rw [if_neg hg] at hstep
      rcases leg_tail_shape cfg h i (h.legs i).name ⟨0, 0, 0⟩ (p1_local h)
          (p2A h i) (p3_local h i) (betaA h i) (gammaA h i) ab with hok | ⟨an, req, lim, herr⟩
      · rw [hok] at hstep
        have hs : s = ⟨⟨0, 0, 0⟩, p1_local h, p2A h i, p3_local h i, alphaOf h i,
            betaA h i, gammaA h i, twistOf h i, ab⟩ := by simpa using hstep.symm
        simp [hs]
      · rw [herr] at hstep; simp at hstep

/-- Unfolding one successful iteration of the loop. -/
theorem ik_loop_cons_ok (cfg : Settings) (det h : Hexapod) (table : PosesTable)
    (ab : List String) (i : Fin 6) (rest : List (Fin 6)) (s : LegSolve)
    (hstep : leg_step cfg h i ab = Except.ok s) :
    ik_loop cfg det h table ab (i :: rest) =
      ik_loop cfg det
        (update_hexapod_points h i
          (to_world h i s.twist s.p0, to_world h i s.twist s.p1,
           to_world h i s.twist s.p2, to_world h i s.twist s.p3))
        (Function.update table i ⟨s.alpha, s.beta, s.gamma⟩) s.airborne rest := by
  simp only [ik_loop, hstep]

/-- Unfolding one failing iteration of the loop. -/
theorem ik_loop_cons_error (cfg : Settings) (det h : Hexapod) (table : PosesTable)
    (ab : List String) (i : Fin 6) (rest : List (Fin 6)) (a : Alert)
    (hstep : leg_step cfg h i ab = Except.error a) :
    ik_loop cfg det h table ab (i :: rest) = ⟨det, h, none, some a, table⟩ := by
  simp only [ik_loop, hstep]

/-!  Mutation on failure (C2) and the shared pose table (C10). -/

/-- Pose-table entries of legs not processed by the remaining loop are left
unchanged. -/
theorem ik_loop_table_preserve (cfg : Settings) (l : List (Fin 6)) :
    ∀ det h table ab (j : Fin 6), j ∉ l →
      (ik_loop cfg det h table ab l).table j = table j := by
  induction l with
  | nil => intro det h table ab j hj; rfl
  | cons i rest ih =>
    intro det h table ab j hj
    have hji : j ≠ i := fun hh => hj (hh ▸ List.mem_cons_self i rest)
    have hjr : j ∉ rest := fun hh => hj (List.mem_cons_of_mem i hh)
    cases hstep : leg_step cfg h i ab with
    | error a => simp only [ik_loop, hstep]
    | ok s =>
      simp only [ik_loop, hstep]
      rw [ih det _ _ _ j hjr]
      exact Function.update_noteq hji _ _

/-- C2 (amended): on any rejection the returned hexapod is the detached
snapshot, whose legs still hold their values from before this request's
per-leg solving began; and when the failure occurs at the very first leg,
the live hexapod is also untouched.  (Legs solved earlier in the same
request remain overwritten in the live instance.) -/
theorem C2_failure_snapshot (cfg : Settings) (transform : Hexapod → Hexapod)
    (hexapod : Hexapod) (table : PosesTable) :
    (let r := inverse_kinematics_update cfg transform hexapod table;
      ((∃ a, r.alert = some a) → r.returned = transform hexapod) ∧
      (∀ a, ¬ body_contact_shoved_on_ground (transform hexapod) →
        leg_step cfg (transform hexapod) 0 [] = Except.error a →
        r.live = transform hexapod ∧ r.returned = transform hexapod ∧
        r.alert = some a)) := by
  constructor
  · simp only [inverse_kinematics_update]
    split_ifs with hb
    · intro _; rfl
    · intro ⟨a, ha⟩
      rcases ik_loop_contract cfg legIndices (transform hexapod) (transform hexapod)
          table [] with ⟨_, hnone, _⟩ | ⟨_, _, hret⟩
      · rw [hnone] at ha; cases ha
      · exact hret
  · intro a hb hstep
    simp only [inverse_kinematics_update]
    rw [if_neg hb, show legIndices = 0 :: [1, 2, 3, 4, 5] from rfl,
      ik_loop_cons_error cfg _ _ table [] 0 _ a hstep]
    exact ⟨rfl, rfl, rfl⟩

/-- Every leg the loop solves has its final table entry equal to that
solve's angles, as long as no later iteration touches the same index
(the leg list has no duplicates) — regardless of whether the remaining
legs succeed or fail. -/
theorem loopSolves_table (cfg : Settings) :
    ∀ (l : List (Fin 6)) (h : Hexapod) (ab : List String) (j : Fin 6) (s : LegSolve),
      LoopSolves cfg h ab l j s → l.Nodup →
      ∀ (det : Hexapod) (table : PosesTable),
        (ik_loop cfg det h table ab l).table j = ⟨s.alpha, s.beta, s.gamma⟩ := by
  intro l h ab j s hsol
  induction hsol with
  | head h2 ab2 i rest s2 hstep =>
    intro hnd det table
    rw [ik_loop_cons_ok cfg det h2 table ab2 i rest s2 hstep,
      ik_loop_table_preserve cfg rest _ _ _ _ i (List.nodup_cons.mp hnd).1]
    exact Function.update_same _ _ _
  | tail h2 ab2 i rest j2 s2 t hstep hrec ih =>
    intro hnd det table
    rw [ik_loop_cons_ok cfg det h2 table ab2 i rest t hstep]
    exact ih (List.nodup_cons.mp hnd).2 det _

/-- C10: on success the returned poses are exactly the shared pose table's
new state (the module-level table, modelled as threaded state); and a call
that fails after k ≥ 1 legs have been solved has already overwritten each
of those k legs' table entries with this request's angles, even though it
returns no poses: every leg solved during the run (LoopSolves, the loop's
successful prefix) has its entry overwritten in the shared table. -/
theorem C10_shared_pose_table (cfg : Settings) (transform : Hexapod → Hexapod)
    (hexapod : Hexapod) (table : PosesTable) :
    (let r := inverse_kinematics_update cfg transform hexapod table;
      (r.alert = none → r.poses = some r.table) ∧
      (∀ (j : Fin 6) (s : LegSolve),
        ¬ body_contact_shoved_on_ground (transform hexapod) →
        LoopSolves cfg (transform hexapod) [] legIndices j s →
        r.table j = ⟨s.alpha, s.beta, s.gamma⟩)) := by
  constructor
  · simp only [inverse_kinematics_update]
    split_ifs with hb
    · intro ha; cases ha
    · intro ha
      rcases ik_loop_contract cfg legIndices (transform hexapod) (transform hexapod)
          table [] with ⟨hp, _, _⟩ | ⟨_, ⟨a, ha2⟩, _⟩
      · exact hp
      · rw [ha2] at ha; cases ha
  · intro j s hb hsol
    simp only [inverse_kinematics_update]
    rw [if_neg hb]
    exact loopSolves_table cfg legIndices (transform hexapod) [] j s hsol
      (by decide) (transform hexapod) table

/-!  Evaluation lemmas for concrete angles and lengths. -/

theorem arccosd_one : arccosd 1 = 0 := by
  unfold arccosd degrees
  simp [Real.arccos_one]

theorem arccosd_zero : arccosd 0 = 90 := by
  unfold arccosd degrees
  rw [Real.arccos_zero]
  field_simp
  ring

theorem arccosd_neg_one : arccosd (-1) = 180 := by
  unfold arccosd degrees
  rw [Real.arccos_neg_one]
  field_simp

theorem arccosd_half : arccosd (1 / 2) = 60 := by
  unfold arccosd degrees
  have h : Real.arccos (1 / 2) = π / 3 := by
    rw [← Real.cos_pi_div_three]
    exact Real.arccos_cos (by positivity) (by linarith [Real.pi_pos])
  rw [h]
  field_simp
  ring

theorem arccosd_sqrt_two_div_two : arccosd (Real.sqrt 2 / 2) = 45 := by
  unfold arccosd degrees
  have h : Real.arccos (Real.sqrt 2 / 2) = π / 4 := by
    rw [← Real.cos_pi_div_four]
    exact Real.arccos_cos (by positivity) (by linarith [Real.pi_pos])
  rw [h]
  field_simp
  ring

theorem arccosd_neg_half : arccosd (-(1 / 2)) = 120 := by
  unfold arccosd degrees
  rw [Real.arccos_neg, Real.arccos_eq_pi_div_two_sub_arcsin]
  have h : Real.arcsin (1 / 2) = π / 6 := by
    rw [show (1:ℝ)/2 = Real.sin (π/6) by rw [Real.sin_pi_div_six]]
    exact Real.arcsin_sin (by linarith [Real.pi_pos]) (by linarith [Real.pi_pos])
  rw [h]
  field_simp
  ring

theorem cosd_zero : cosd 0 = 1 := by
  unfold cosd radians
  simp

theorem sind_zero : sind 0 = 0 := by
  unfold sind radians
  simp

theorem cosd_sixty : cosd 60 = 1 / 2 := by
  unfold cosd radians
  rw [show (60:ℝ) * (π / 180) = π / 3 by ring]
  exact Real.cos_pi_div_three

theorem sind_sixty : sind 60 = Real.sqrt 3 / 2 := by
  unfold sind radians
  rw [show (60:ℝ) * (π / 180) = π / 3 by ring]
  exact Real.sin_pi_div_three

/-- The length of a vector along the x axis. -/
theorem length_x_axis (c : ℝ) : length ⟨c, 0, 0⟩ = |c| := by
  unfold length
  norm_num
  exact Real.sqrt_sq_eq_abs c

/-- The angle of a vector with itself scaled positively is zero. -/
theorem angle_between_x_self (c u : ℝ) (hc : 0 < c) (hu : u = c / |c|) :
    angle_between ⟨u, 0, 0⟩ ⟨c, 0, 0⟩ = 0 := by
  unfold angle_between dot
  rw [length_x_axis, length_x_axis]
  have hcabs : |c| = c := abs_of_pos hc
  have hu1 : u = 1 := by rw [hu, hcabs]; field_simp
  rw [hu1]
  norm_num
  rw [hcabs, div_self (ne_of_gt hc)]
  exact arccosd_one

/-- pymod of a value already inside [0, m). -/
theorem pymod_eq_self (x m : ℝ) (h0 : 0 ≤ x) (h1 : x < m) : pymod x m = x := by
  unfold pymod
  have hm : 0 < m := lt_of_le_of_lt h0 h1
  have hf : ⌊x / m⌋ = 0 := by
    rw [Int.floor_eq_zero_iff]
    constructor
    · positivity
    · exact (div_lt_one hm).mpr h1
  rw [hf]
  push_cast
  ring

/-- compute_twist_wrt_to_world when the difference already lies in [0, 180]. -/
theorem compute_twist_small (a axis : ℝ) (h0 : 0 ≤ a - axis) (h1 : a - axis ≤ 180) :
    compute_twist_wrt_to_world a axis = a - axis := by
  unfold compute_twist_wrt_to_world
  rw [pymod_eq_self _ _ h0 (by linarith)]
  rw [if_neg (by linarith), if_neg (by linarith)]

/-- The angle between a unit x-direction vector and a positive multiple of
itself is zero. -/
theorem angle_between_x_unit (c : ℝ) (hc : c ≠ 0) :
    angle_between ⟨c / |c|, 0, 0⟩ ⟨c, 0, 0⟩ = 0 := by
  unfold angle_between dot
  rw [length_x_axis, length_x_axis]
  have habs : (0:ℝ) < |c| := abs_pos.mpr hc
  have h1 : abs (c / |c|) = 1 := by rw [abs_div, abs_abs, div_self (ne_of_gt habs)]
  have h2 : c / |c| * c + 0 * 0 + 0 * 0 = |c| := by
    rw [div_mul_eq_mul_div, mul_comm, ← sq, ← sq_abs, sq]
    field_simp
  rw [h1, h2, one_mul, div_self (ne_of_gt habs)]
  exact arccosd_one

/-- The angle between a unit x-direction vector and the x axis. -/
theorem angle_between_unit_x (u : ℝ) (hu : |u| = 1) :
    angle_between ⟨u, 0, 0⟩ ⟨1, 0, 0⟩ = arccosd u := by
  unfold angle_between dot
  rw [length_x_axis, length_x_axis, hu]
  norm_num

/-- Evaluation of the per-leg geometry for a planted planar leg: mount at
the origin, foot on the x axis at c ≠ 0, identity body orientation and unit
coxia. -/
theorem planar_leg_eval (h : Hexapod) (i : Fin 6) (c : ℝ) (hc : c ≠ 0)
    (hv : h.bodyVertices i = ⟨0, 0, 0⟩) (hf : (h.legs i).p3 = ⟨c, 0, 0⟩)
    (hz : h.z_axis = ⟨0, 0, 1⟩) (hcox : h.coxia = 1) :
    unit_coxia_vec h i = ⟨c / |c|, 0, 0⟩ ∧
    coxia_joint h i = ⟨c / |c|, 0, 0⟩ ∧
    rho h i = 0 ∧
    p3_local h i = ⟨|c|, 0, 0⟩ ∧
    coxia_to_foot_vector2d h i = ⟨|c| - 1, 0, 0⟩ ∧
    coxia_to_foot_length h i = abs (|c| - 1) := by
  have habs : (0:ℝ) < |c| := abs_pos.mpr hc
  have hbtf : body_to_foot_vec h i = ⟨c, 0, 0⟩ := by
    unfold body_to_foot_vec Leg.foot_tip
    rw [hv, hf]
    simp [vector_from_to]
  have hproj : project_vector_onto_plane ⟨c, 0, 0⟩ ⟨0, 0, 1⟩ = ⟨c, 0, 0⟩ := by
    simp [project_vector_onto_plane, dot, scalar_multiply, vector_from_to]
  have hu : unit_coxia_vec h i = ⟨c / |c|, 0, 0⟩ := by
    unfold unit_coxia_vec
    rw [hbtf, hz, hproj]
    unfold get_unit_vector
    rw [length_x_axis]
    simp only [scalar_multiply, Point.mk.injEq]
    refine ⟨by ring, by ring, by ring⟩
  have hcj : coxia_joint h i = ⟨c / |c|, 0, 0⟩ := by
    unfold coxia_joint
    rw [hv, hu, hcox]
    simp [add_vectors, scalar_multiply]
  have hrho : rho h i = 0 := by
    unfold rho
    rw [hu, hbtf]
    exact angle_between_x_unit c hc
  have hp3 : p3_local h i = ⟨|c|, 0, 0⟩ := by
    unfold p3_local
    rw [hbtf, hrho, length_x_axis, cosd_zero, sind_zero]
    simp
  have hctf : coxia_to_foot_vector2d h i = ⟨|c| - 1, 0, 0⟩ := by
    unfold coxia_to_foot_vector2d p1_local
    rw [hcox, hp3]
    simp [vector_from_to]
  have hd : coxia_to_foot_length h i = abs (|c| - 1) := by
    unfold coxia_to_foot_length
    rw [hctf, length_x_axis]
  exact ⟨hu, hcj, hrho, hp3, hctf, hd⟩

/-- Evaluation of the twist for a planted planar leg with identity body
axes: the twist is arccosd of the sign of c. -/
theorem planar_twist_eval (h : Hexapod) (i : Fin 6) (c : ℝ) (hc : c ≠ 0)
    (hv : h.bodyVertices i = ⟨0, 0, 0⟩) (hf : (h.legs i).p3 = ⟨c, 0, 0⟩)
    (hx : h.x_axis = ⟨1, 0, 0⟩) (hz : h.z_axis = ⟨0, 0, 1⟩) (hcox : h.coxia = 1) :
    twistOf h i = arccosd (c / |c|) := by
  have hu := (planar_leg_eval h i c hc hv hf hz hcox).1
  have habs : (0:ℝ) < |c| := abs_pos.mpr hc
  have hu1 : abs (c / |c|) = 1 := by rw [abs_div, abs_abs, div_self (ne_of_gt habs)]
  unfold twistOf find_twist_frame
  rw [hu, hx, hz]
  have hccw : ¬ is_counter_clockwise ⟨c / |c|, 0, 0⟩ ⟨1, 0, 0⟩ ⟨0, 0, 1⟩ := by
    unfold is_counter_clockwise dot cross
    norm_num
  simp only [hccw, if_false]
  exact angle_between_unit_x _ hu1

/-!  A loop iteration only reads its own leg. -/

/-- Updating one leg leaves the other legs unchanged. -/
theorem update_legs_other (h : Hexapod) (j : Fin 6)
    (pts : Point × Point × Point × Point) (i : Fin 6) (hij : i ≠ j) :
    (update_hexapod_points h j pts).legs i = h.legs i := by
  unfold update_hexapod_points
  exact Function.update_noteq hij _ _

/-- leg_step depends only on the iterated leg, the body data of that leg
and the shared dimensions, axes and frame. -/
theorem leg_step_congr (cfg : Settings) (h2 h : Hexapod) (i : Fin 6) (ab : List String)
    (hl : h2.legs i = h.legs i) (hv : h2.bodyVertices i = h.bodyVertices i)
    (hax : h2.coxiaAxes i = h.coxiaAxes i) (hcx : h2.coxia = h.coxia)
    (hfm : h2.femur = h.femur) (htb : h2.tibia = h.tibia)
    (hx : h2.x_axis = h.x_axis) (hz : h2.z_axis = h.z_axis) :
    leg_step cfg h2 i ab = leg_step cfg h i ab := by
  have e1 : body_to_foot_vec h2 i = body_to_foot_vec h i := by
    unfold body_to_foot_vec; rw [hl, hv]
  have e2 : unit_coxia_vec h2 i = unit_coxia_vec h i := by
    unfold unit_coxia_vec; rw [e1, hz]
  have e3 : coxia_joint h2 i = coxia_joint h i := by
    unfold coxia_joint; rw [hv, e2, hcx]
  have e4 : rho h2 i = rho h i := by
    unfold rho; rw [e2, e1]
  have e5 : p1_local h2 = p1_local h := by
    unfold p1_local; rw [hcx]
  have e6 : p3_local h2 i = p3_local h i := by
    unfold p3_local; rw [e1, e4]
  have e7 : coxia_to_foot_vector2d h2 i = coxia_to_foot_vector2d h i := by
    unfold coxia_to_foot_vector2d; rw [e5, e6]
  have e8 : coxia_to_foot_length h2 i = coxia_to_foot_length h i := by
    unfold coxia_to_foot_length; rw [e7]
  have e9 : thetaA h2 i = thetaA h i := by
    unfold thetaA; rw [e8, hfm, htb]
  have e10 : phiA h2 i = phiA h i := by
    unfold phiA; rw [e7]
  have e11 : betaA h2 i = betaA h i := by
    unfold betaA; rw [e6, e9, e10]
  have e12 : p2A h2 i = p2A h i := by
    unfold p2A; rw [e5, hfm, e11]
  have e13 : gammaA h2 i = gammaA h i := by
    unfold gammaA; rw [e5, e12, e6]
  have e14 : femur_tibia_direction h2 i = femur_tibia_direction h i := by
    unfold femur_tibia_direction; rw [e7]
  have e15 : femur_vectorB h2 i = femur_vectorB h i := by
    unfold femur_vectorB; rw [e14, hfm]
  have e16 : p2B h2 i = p2B h i := by
    unfold p2B; rw [e5, e15]
  have e17 : tibia_vectorB h2 i = tibia_vectorB h i := by
    unfold tibia_vectorB; rw [e14, htb]
  have e18 : p3B h2 i = p3B h i := by
    unfold p3B; rw [e16, e17]
  have e19 : betaB h2 i = betaB h i := by
    unfold betaB; rw [e15]
  have e20 : twistOf h2 i = twistOf h i := by
    simp only [twistOf, find_twist_frame, e2, hx, hz]
  have e21 : alphaOf h2 i = alphaOf h i := by
    simp only [alphaOf, e20, hax]
  unfold leg_step
  rw [e3, hl, e8, hfm, htb]
  unfold leg_tail
  rw [e5, e6, e11, e12, e13, e16, e18, e19, e20, e21]

/-- leg_step after updating a different leg's points. -/
theorem leg_step_after_update (cfg : Settings) (h : Hexapod) (j i : Fin 6)
    (pts : Point × Point × Point × Point) (ab : List String) (hij : i ≠ j) :
    leg_step cfg (update_hexapod_points h j pts) i ab = leg_step cfg h i ab :=
  leg_step_congr cfg (update_hexapod_points h j pts) h i ab
    (update_legs_other h j pts i hij) rfl rfl rfl rfl rfl rfl rfl

/-!  Concrete evaluations on the fixtures. -/

theorem hexC2_leg0_p3 : (hexC2.legs 0).p3 = ⟨3, 0, 0⟩ := by
  simp [hexC2, mkLeg, footB]

theorem hexC2_leg0_name : (hexC2.legs 0).name = "right-middle" := by
  simp [hexC2, mkLeg]

theorem hexC2_leg0_d : coxia_to_foot_length hexC2 0 = 2 := by
  have hd := (planar_leg_eval hexC2 0 3 (by norm_num) rfl hexC2_leg0_p3 rfl rfl).2.2.2.2.2
  norm_num at hd
  exact hd

theorem hexC2_leg0_coxia_ok : ¬ (coxia_joint hexC2 0).z < ((hexC2.legs 0).foot_tip).z := by
  have hcj := (planar_leg_eval hexC2 0 3 (by norm_num) rfl hexC2_leg0_p3 rfl rfl).2.1
  norm_num at hcj
  unfold Leg.foot_tip
  rw [hcj, hexC2_leg0_p3]
  norm_num

theorem hexC2_leg0_no_triangle :
    ¬ is_triangle hexC2.tibia hexC2.femur (coxia_to_foot_length hexC2 0) := by
  rw [hexC2_leg0_d]
  intro hh
  have h1 := hh.1
  norm_num [hexC2] at h1

theorem hexC2_leg0_ctf : coxia_to_foot_vector2d hexC2 0 = ⟨2, 0, 0⟩ := by
  have hctf := (planar_leg_eval hexC2 0 3 (by norm_num) rfl hexC2_leg0_p3 rfl rfl).2.2.2.2.1
  norm_num at hctf
  exact hctf

theorem hexC2_leg0_dir : femur_tibia_direction hexC2 0 = ⟨1, 0, 0⟩ := by
  unfold femur_tibia_direction
  rw [hexC2_leg0_ctf]
  unfold get_unit_vector
  rw [length_x_axis]
  norm_num [scalar_multiply]

theorem hexC2_leg0_fv : femur_vectorB hexC2 0 = ⟨1, 0, 0⟩ := by
  unfold femur_vectorB
  rw [hexC2_leg0_dir]
  norm_num [scalar_multiply, hexC2]

theorem hexC2_p1 : p1_local hexC2 = ⟨1, 0, 0⟩ := rfl

theorem hexC2_leg0_p2B : p2B hexC2 0 = ⟨2, 0, 0⟩ := by
  unfold p2B
  rw [hexC2_leg0_fv, hexC2_p1]
  norm_num [add_vectors]

theorem hexC2_leg0_tv : tibia_vectorB hexC2 0 = ⟨1, 0, 0⟩ := by
  unfold tibia_vectorB
  rw [hexC2_leg0_dir]
  norm_num [scalar_multiply, hexC2]

theorem hexC2_leg0_p3B : p3B hexC2 0 = ⟨3, 0, 0⟩ := by
  unfold p3B
  rw [hexC2_leg0_p2B, hexC2_leg0_tv]
  norm_num [add_vectors]

theorem hexC2_leg0_betaB : betaB hexC2 0 = 0 := by
  unfold betaB
  rw [hexC2_leg0_fv]
  rw [if_neg (by norm_num)]
  have hh := angle_between_x_unit 1 one_ne_zero
  norm_num at hh
  exact hh

theorem hexC2_leg0_twist : twistOf hexC2 0 = 0 := by
  have hh := planar_twist_eval hexC2 0 3 (by norm_num) rfl hexC2_leg0_p3 rfl rfl rfl
  norm_num at hh
  rw [hh, arccosd_one]

theorem hexC2_leg0_alpha : alphaOf hexC2 0 = 0 := by
  unfold alphaOf
  rw [hexC2_leg0_twist]
  have hax : hexC2.coxiaAxes 0 = 0 := by simp [hexC2]
  rw [hax, compute_twist_small 0 0 (by norm_num) (by norm_num)]
  norm_num

/-- Leg 0 of hexC2 solves through case B fully extended: angles all zero
and the leg recorded airborne. -/
theorem hexC2_leg0_step :
    leg_step cfgTest hexC2 0 [] =
      Except.ok ⟨⟨0, 0, 0⟩, ⟨1, 0, 0⟩, ⟨2, 0, 0⟩, ⟨3, 0, 0⟩, 0, 0, 0, 0,
        ["right-middle"]⟩ := by
  rw [leg_step_caseB cfgTest hexC2 0 [] hexC2_leg0_coxia_ok hexC2_leg0_no_triangle]
  rw [hexC2_leg0_name, hexC2_leg0_d]
  rw [if_neg (by norm_num [hexC2]), if_neg (by norm_num [hexC2])]
  rw [show ([] : List String) ++ ["right-middle"] = ["right-middle"] from rfl]
  rw [show (legs_too_short ["right-middle"]).2 = none from rfl]
  rw [hexC2_p1, hexC2_leg0_p2B, hexC2_leg0_p3B, hexC2_leg0_betaB]
  rw [leg_tail_eq]
  rw [hexC2_leg0_alpha, hexC2_leg0_twist]
  rw [if_neg (by norm_num [cfgTest]), if_neg (by norm_num [cfgTest]),
    if_neg (by norm_num [cfgTest])]

theorem hexC2_leg1_p3 : (hexC2.legs 1).p3 = ⟨-3, 0, 0⟩ := by
  simp [hexC2, mkLeg, footC, testNames]

theorem hexC2_leg1_name : (hexC2.legs 1).name = "right-front" := by
  simp [hexC2, mkLeg, testNames]

theorem hexC2_leg1_d : coxia_to_foot_length hexC2 1 = 2 := by
  have hd := (planar_leg_eval hexC2 1 (-3) (by norm_num) rfl hexC2_leg1_p3 rfl rfl).2.2.2.2.2
  norm_num at hd
  exact hd

theorem hexC2_leg1_coxia_ok : ¬ (coxia_joint hexC2 1).z < ((hexC2.legs 1).foot_tip).z := by
  have hcj := (planar_leg_eval hexC2 1 (-3) (by norm_num) rfl hexC2_leg1_p3 rfl rfl).2.1
  norm_num at hcj
  unfold Leg.foot_tip
  rw [hcj, hexC2_leg1_p3]
  norm_num

theorem hexC2_leg1_no_triangle :
    ¬ is_triangle hexC2.tibia hexC2.femur (coxia_to_foot_length hexC2 1) := by
  rw [hexC2_leg1_d]
  intro hh
  have h1 := hh.1
  norm_num [hexC2] at h1

theorem hexC2_leg1_ctf : coxia_to_foot_vector2d hexC2 1 = ⟨2, 0, 0⟩ := by
  have hctf := (planar_leg_eval hexC2 1 (-3) (by norm_num) rfl hexC2_leg1_p3 rfl rfl).2.2.2.2.1
  norm_num at hctf
  exact hctf

theorem hexC2_leg1_betaB : betaB hexC2 1 = 0 := by
  unfold betaB femur_vectorB femur_tibia_direction
  rw [hexC2_leg1_ctf]
  unfold get_unit_vector
  rw [length_x_axis]
  have hfv : scalar_multiply (scalar_multiply ⟨2, 0, 0⟩ (1 / |(2:ℝ)|)) hexC2.femur =
      (⟨1, 0, 0⟩ : Point) := by
    norm_num [scalar_multiply, hexC2]
  rw [hfv, if_neg (by norm_num)]
  have hh := angle_between_x_unit 1 one_ne_zero
  norm_num at hh
  exact hh

theorem hexC2_leg1_twist : twistOf hexC2 1 = 180 := by
  have hh := planar_twist_eval hexC2 1 (-3) (by norm_num) rfl hexC2_leg1_p3 rfl rfl rfl
  norm_num at hh
  rw [hh, arccosd_neg_one]

theorem hexC2_leg1_alpha : alphaOf hexC2 1 = 135 := by
  unfold alphaOf
  rw [hexC2_leg1_twist]
  have hax : hexC2.coxiaAxes 1 = 45 := by simp [hexC2]
  rw [hax, compute_twist_small 180 45 (by norm_num) (by norm_num)]
  norm_num

/-- Leg 1 of hexC2 reaches the alpha range check with alpha = 135 and is
rejected against the limit 90. -/
theorem hexC2_leg1_step :
    leg_step cfgTest hexC2 1 ["right-middle"] =
      Except.error (Alert.aboveRangeOfMotion "coxia angle (alpha)" "right-front" 135 90) := by
  rw [leg_step_caseB cfgTest hexC2 1 ["right-middle"] hexC2_leg1_coxia_ok
    hexC2_leg1_no_triangle]
  rw [hexC2_leg1_name, hexC2_leg1_d]
  rw [if_neg (by norm_num [hexC2]), if_neg (by norm_num [hexC2])]
  rw [show ["right-middle"] ++ ["right-front"] = ["right-middle", "right-front"] from rfl]
  rw [show (legs_too_short ["right-middle", "right-front"]).2 = none from rfl]
  rw [hexC2_leg1_betaB, leg_tail_eq, hexC2_leg1_alpha]
  rw [if_neg (by norm_num [cfgTest]), if_neg (by norm_num [cfgTest]),
    if_pos (by norm_num [cfgTest])]
  rfl

theorem hexC2_no_body_collision : ¬ body_contact_shoved_on_ground hexC2 := by
  rintro ⟨i, hi⟩
  revert hi
  fin_cases i <;>
    simp [hexC2, mkLeg, footB, footC, testNames, Leg.foot_tip]

/-- Running the whole request on hexC2: leg 0 is solved and written into
the live hexapod and the shared table, then leg 1 fails the alpha range
check; the call returns the detached snapshot with the alert, no poses,
while the live instance keeps leg 0's overwritten points. -/
theorem hexC2_run (tb : PosesTable) :
    (inverse_kinematics_update cfgTest id hexC2 tb).alert =
        some (Alert.aboveRangeOfMotion "coxia angle (alpha)" "right-front" 135 90) ∧
    (inverse_kinematics_update cfgTest id hexC2 tb).poses = none ∧
    (inverse_kinematics_update cfgTest id hexC2 tb).returned = hexC2 ∧
    ((inverse_kinematics_update cfgTest id hexC2 tb).live.legs 0).p1 = ⟨1, 0, 0⟩ ∧
    (inverse_kinematics_update cfgTest id hexC2 tb).table 0 = ⟨0, 0, 0⟩ := by
  have h1 : inverse_kinematics_update cfgTest id hexC2 tb =
      ik_loop cfgTest hexC2 hexC2 tb [] legIndices := by
    simp only [inverse_kinematics_update, id_eq]
    rw [if_neg hexC2_no_body_collision]
  rw [h1]
  simp only [legIndices]
  rw [ik_loop_cons_ok cfgTest hexC2 hexC2 tb [] 0 [1, 2, 3, 4, 5] _ hexC2_leg0_step]
  dsimp only
  have key : ∀ (pts : Point × Point × Point × Point) (tb : PosesTable),
      ik_loop cfgTest hexC2 (update_hexapod_points hexC2 0 pts) tb ["right-middle"]
          (1 :: [2, 3, 4, 5]) =
        ⟨hexC2, update_hexapod_points hexC2 0 pts, none,
          some (Alert.aboveRangeOfMotion "coxia angle (alpha)" "right-front" 135 90), tb⟩ := by
    intro pts tb
    rw [ik_loop_cons_error cfgTest hexC2 (update_hexapod_points hexC2 0 pts) tb
      ["right-middle"] 1 [2, 3, 4, 5]
      (Alert.aboveRangeOfMotion "coxia angle (alpha)" "right-front" 135 90) (by
      rw [leg_step_after_update cfgTest hexC2 0 1 pts ["right-middle"]
        (show (1 : Fin 6) ≠ 0 from by decide)]
      exact hexC2_leg1_step)]
  rw [key _ _]
  refine ⟨rfl, rfl, rfl, ?_, ?_⟩
  · simp only [update_hexapod_points]
    rw [Function.update_same]
    unfold to_world rotz_apply
    simp [hexC2, cosd_zero, sind_zero]
  · dsimp only
    rw [Function.update_same]

/-- C2 counterexample: the hexC2 request is rejected with a
RangeOfMotionExceeded alert (alpha of the second leg), yet the live
Hexapod's leg 0 joint p1 — ⟨9, 9, 9⟩ before the request's per-leg solving —
has been overwritten to ⟨1, 0, 0⟩ by the already-solved first leg. -/
theorem C2_counterexample :
    (inverse_kinematics_update cfgTest id hexC2 table0).alert =
        some (Alert.aboveRangeOfMotion "coxia angle (alpha)" "right-front" 135 90) ∧
    ((id hexC2).legs 0).p1 = ⟨9, 9, 9⟩ ∧
    ((inverse_kinematics_update cfgTest id hexC2 table0).live.legs 0).p1 = ⟨1, 0, 0⟩ ∧
    (⟨1, 0, 0⟩ : Point) ≠ (⟨9, 9, 9⟩ : Point) := by
  refine ⟨(hexC2_run table0).1, ?_, (hexC2_run table0).2.2.2.1, ?_⟩
  · simp [hexC2, mkLeg, junkPoint]
  · intro hh
    have := congrArg Point.x hh
    norm_num at this

theorem hexAF_leg0_p3 : (hexAlphaFail.legs 0).p3 = ⟨-3, 0, 0⟩ := by
  simp [hexAlphaFail, mkLeg, footC, testNames]

theorem hexAF_leg0_name : (hexAlphaFail.legs 0).name = "right-middle" := by
  simp [hexAlphaFail, mkLeg, testNames]

theorem hexAF_leg0_d : coxia_to_foot_length hexAlphaFail 0 = 2 := by
  have hd := (planar_leg_eval hexAlphaFail 0 (-3) (by norm_num) rfl hexAF_leg0_p3
    rfl rfl).2.2.2.2.2
  norm_num at hd
  exact hd

theorem hexAF_leg0_coxia_ok :
    ¬ (coxia_joint hexAlphaFail 0).z < ((hexAlphaFail.legs 0).foot_tip).z := by
  have hcj := (planar_leg_eval hexAlphaFail 0 (-3) (by norm_num) rfl hexAF_leg0_p3
    rfl rfl).2.1
  norm_num at hcj
  unfold Leg.foot_tip
  rw [hcj, hexAF_leg0_p3]
  norm_num

theorem hexAF_leg0_no_triangle :
    ¬ is_triangle hexAlphaFail.tibia hexAlphaFail.femur
      (coxia_to_foot_length hexAlphaFail 0) := by
  rw [hexAF_leg0_d]
  intro hh
  have h1 := hh.1
  norm_num [hexAlphaFail] at h1

theorem hexAF_leg0_ctf : coxia_to_foot_vector2d hexAlphaFail 0 = ⟨2, 0, 0⟩ := by
  have hctf := (planar_leg_eval hexAlphaFail 0 (-3) (by norm_num) rfl hexAF_leg0_p3
    rfl rfl).2.2.2.2.1
  norm_num at hctf
  exact hctf

theorem hexAF_leg0_betaB : betaB hexAlphaFail 0 = 0 := by
  unfold betaB femur_vectorB femur_tibia_direction
  rw [hexAF_leg0_ctf]
  unfold get_unit_vector
  rw [length_x_axis]
  have hfv : scalar_multiply (scalar_multiply ⟨2, 0, 0⟩ (1 / |(2:ℝ)|)) hexAlphaFail.femur =
      (⟨1, 0, 0⟩ : Point) := by
    norm_num [scalar_multiply, hexAlphaFail]
  rw [hfv, if_neg (by norm_num)]
  have hh := angle_between_x_unit 1 one_ne_zero
  norm_num at hh
  exact hh

theorem hexAF_leg0_alpha : alphaOf hexAlphaFail 0 = 135 := by
  unfold alphaOf
  have hh := planar_twist_eval hexAlphaFail 0 (-3) (by norm_num) rfl hexAF_leg0_p3 rfl rfl rfl
  norm_num at hh
  rw [hh, arccosd_neg_one]
  have hax : hexAlphaFail.coxiaAxes 0 = 45 := rfl
  rw [hax, compute_twist_small 180 45 (by norm_num) (by norm_num)]
  norm_num

/-- The very first leg of hexAlphaFail fails the alpha range check. -/
theorem hexAF_leg0_step :
    leg_step cfgTest hexAlphaFail 0 [] =
      Except.error
        (Alert.aboveRangeOfMotion "coxia angle (alpha)" "right-middle" 135 90) := by
  rw [leg_step_caseB cfgTest hexAlphaFail 0 [] hexAF_leg0_coxia_ok hexAF_leg0_no_triangle]
  rw [hexAF_leg0_name, hexAF_leg0_d]
  rw [if_neg (by norm_num [hexAlphaFail]), if_neg (by norm_num [hexAlphaFail])]
  rw [show ([] : List String) ++ ["right-middle"] = ["right-middle"] from rfl]
  rw [show (legs_too_short ["right-middle"]).2 = none from rfl]
  rw [hexAF_leg0_betaB, leg_tail_eq, hexAF_leg0_alpha]
  rw [if_neg (by norm_num [cfgTest]), if_neg (by norm_num [cfgTest]),
    if_pos (by norm_num [cfgTest])]
  rfl

theorem hexAF_no_body_collision : ¬ body_contact_shoved_on_ground hexAlphaFail := by
  rintro ⟨i, hi⟩
  revert hi
  fin_cases i <;>
    simp [hexAlphaFail, mkLeg, footC, testNames, Leg.foot_tip]

/-- Witness for C2 at a concrete input: hexAlphaFail's first leg fails the
alpha range check, and both the returned snapshot and the live hexapod
equal the pre-solving hexapod. -/
theorem C2_failure_snapshot_witness :
    (¬ body_contact_shoved_on_ground (id hexAlphaFail)) ∧
    leg_step cfgTest (id hexAlphaFail) 0 [] =
      Except.error
        (Alert.aboveRangeOfMotion "coxia angle (alpha)" "right-middle" 135 90) ∧
    (let r := inverse_kinematics_update cfgTest id hexAlphaFail table0;
      r.live = id hexAlphaFail ∧ r.returned = id hexAlphaFail ∧
      r.alert = some
        (Alert.aboveRangeOfMotion "coxia angle (alpha)" "right-middle" 135 90)) := by
  have happ := (C2_failure_snapshot cfgTest id hexAlphaFail table0).2
    (Alert.aboveRangeOfMotion "coxia angle (alpha)" "right-middle" 135 90)
    hexAF_no_body_collision hexAF_leg0_step
  exact ⟨hexAF_no_body_collision, hexAF_leg0_step, happ.1, happ.2.1, happ.2.2⟩


/-- Witness for C6 at concrete inputs: two airborne legs on the same side
pass; three left legs fail; and a fourth airborne leg aborts the iteration
that recorded it with the too-many-legs alert. -/
theorem C6_stability_witness :
    (legs_too_short ["left-front", "left-middle"]).1 = false ∧
    (legs_too_short ["left-front", "left-middle", "left-back"]).1 = true ∧
    leg_step cfgTest hexC2 0 ["left-front", "left-middle", "left-back"] =
      Except.error (Alert.tooManyLegsOff
        ["left-front", "left-middle", "left-back", "right-middle"]) := by
  refine ⟨C6_stability.2.1 _ rfl, ?_, ?_⟩
  · rw [C6_stability.1]
    decide
  · apply C6_stability.2.2 cfgTest hexC2 0 ["left-front", "left-middle", "left-back"] _
      hexC2_leg0_coxia_ok hexC2_leg0_no_triangle
      (by rw [hexC2_leg0_d]; norm_num [hexC2])
      (by rw [hexC2_leg0_d]; norm_num [hexC2])
    rw [hexC2_leg0_name]
    rfl

/-- Witness for C4 at a concrete input: hexC2's leg 0 is in case B (no
triangle with d = 2, femur = tibia = 1), neither segment is too long, and
the leg solves fully extended with gamma = 0 and the leg recorded
airborne. -/
theorem C4_caseB_witness :
    (¬ (coxia_joint hexC2 0).z < ((hexC2.legs 0).foot_tip).z) ∧
    (¬ is_triangle hexC2.tibia hexC2.femur (coxia_to_foot_length hexC2 0)) ∧
    ((leg_step cfgTest hexC2 0 [] = Except.error (Alert.femurTooLong (hexC2.legs 0).name)) ↔
      coxia_to_foot_length hexC2 0 + hexC2.tibia < hexC2.femur) ∧
    (∀ s, leg_step cfgTest hexC2 0 [] = Except.ok s →
      s.gamma = 0 ∧ s.beta = betaB hexC2 0 ∧ s.p2 = p2B hexC2 0 ∧ s.p3 = p3B hexC2 0 ∧
      s.airborne = [] ++ [(hexC2.legs 0).name]) :=
  ⟨hexC2_leg0_coxia_ok, hexC2_leg0_no_triangle,
    (C4_caseB cfgTest hexC2 0 [] hexC2_leg0_coxia_ok hexC2_leg0_no_triangle).1,
    (C4_caseB cfgTest hexC2 0 [] hexC2_leg0_coxia_ok hexC2_leg0_no_triangle).2.2.2⟩

/-- Witness for C5 at a concrete input: hexC2's leg 0 has d = 2 exactly
equal to femur + tibia = 1 + 1 and is treated as the extended case. -/
theorem C5_exact_boundary_witness :
    coxia_to_foot_length hexC2 0 = hexC2.femur + hexC2.tibia ∧
    (¬ is_triangle hexC2.tibia hexC2.femur (coxia_to_foot_length hexC2 0)) ∧
    (∀ s, leg_step cfgTest hexC2 0 [] = Except.ok s →
      s.gamma = 0 ∧ s.beta = betaB hexC2 0 ∧ s.p3 = p3B hexC2 0 ∧
      s.airborne = [] ++ [(hexC2.legs 0).name]) := by
  have hd : coxia_to_foot_length hexC2 0 = hexC2.femur + hexC2.tibia := by
    rw [hexC2_leg0_d]
    norm_num [hexC2]
  have happ := C5_exact_boundary cfgTest hexC2 0 [] hd
    (by norm_num [hexC2]) (by norm_num [hexC2]) hexC2_leg0_coxia_ok
  exact ⟨hd, happ.1, happ.2.2⟩

/-- C9 counterexample: every mount point of hexC2 is exactly at its foot's
height (z = 0 on both sides), which the claim says must cause the
body-contact rejection; the code does not reject with that alert (its
pre-check is strict), as this request instead fails much later with a
range-of-motion alert. -/
theorem C9_counterexample :
    (hexC2.bodyVertices 0).z = ((hexC2.legs 0).foot_tip).z ∧
    (inverse_kinematics_update cfgTest id hexC2 table0).alert ≠
      some Alert.bodyContactShovedOnGround := by
  constructor
  · simp [hexC2, mkLeg, footB, Leg.foot_tip]
  · rw [(hexC2_run table0).1]
    simp

/-- Witness for C1 at a concrete input. -/
theorem C1_contract_witness :
    (let r := inverse_kinematics_update cfgTest id hexC2 table0;
      ((r.poses = some r.table ∧ r.alert = none ∧ r.returned = r.live) ∨
        (r.poses = none ∧ (∃ a, r.alert = some a) ∧ r.returned = id hexC2)) ∧
      (r.alert = none ↔
        ¬ body_contact_shoved_on_ground (id hexC2) ∧
          (ik_loop cfgTest (id hexC2) (id hexC2) table0 [] legIndices).alert = none)) :=
  C1_contract cfgTest id hexC2 table0

/-- Witness for C7 at a concrete input. -/
theorem C7_alpha_witness :
    (twistOf hexC2 1 =
      if is_counter_clockwise (unit_coxia_vec hexC2 1) hexC2.x_axis hexC2.z_axis
      then -(angle_between (unit_coxia_vec hexC2 1) hexC2.x_axis)
      else angle_between (unit_coxia_vec hexC2 1) hexC2.x_axis) ∧
    (0 ≤ angle_between (unit_coxia_vec hexC2 1) hexC2.x_axis ∧
      angle_between (unit_coxia_vec hexC2 1) hexC2.x_axis ≤ 180) ∧
    (-180 < alphaOf hexC2 1 ∧ alphaOf hexC2 1 ≤ 180) ∧
    (∃ k : ℤ, alphaOf hexC2 1 = twistOf hexC2 1 - hexC2.coxiaAxes 1 - 360 * k) :=
  C7_alpha hexC2 1

/-- Witness for C8 at a concrete input: an angle of 135 against the limit
90 is rejected, and the hexC2 leg-1 iteration tail shows the check order. -/
theorem C8_range_of_motion_witness :
    ((angle_above_limit 135 90 "right-front" "coxia angle (alpha)").1 = true ↔
      |(135:ℝ)| > 90) ∧
    ((angle_above_limit 135 90 "right-front" "coxia angle (alpha)").2 =
      if |(135:ℝ)| > 90 then
        some (Alert.aboveRangeOfMotion "coxia angle (alpha)" "right-front" 135 90)
      else none) ∧
    (leg_tail cfgTest hexC2 1 "right-front" ⟨0, 0, 0⟩ ⟨1, 0, 0⟩ ⟨2, 0, 0⟩ ⟨3, 0, 0⟩ 0 0
        ["right-middle", "right-front"] =
      if |(0:ℝ)| > cfgTest.BETA_MAX_ANGLE then
        Except.error (Alert.aboveRangeOfMotion "beta angle (beta)" "right-front" 0
          cfgTest.BETA_MAX_ANGLE)
      else if |(0:ℝ)| > cfgTest.GAMMA_MAX_ANGLE then
        Except.error (Alert.aboveRangeOfMotion "gamma angle (gamma)" "right-front" 0
          cfgTest.GAMMA_MAX_ANGLE)
      else if |alphaOf hexC2 1| > cfgTest.ALPHA_MAX_ANGLE then
        Except.error (Alert.aboveRangeOfMotion "coxia angle (alpha)" "right-front"
          (alphaOf hexC2 1) cfgTest.ALPHA_MAX_ANGLE)
      else Except.ok ⟨⟨0, 0, 0⟩, ⟨1, 0, 0⟩, ⟨2, 0, 0⟩, ⟨3, 0, 0⟩, alphaOf hexC2 1, 0, 0,
        twistOf hexC2 1, ["right-middle", "right-front"]⟩) :=
  C8_range_of_motion cfgTest hexC2 1 "right-front" "coxia angle (alpha)"
    ⟨0, 0, 0⟩ ⟨1, 0, 0⟩ ⟨2, 0, 0⟩ ⟨3, 0, 0⟩ 135 90 0 0 ["right-middle", "right-front"]

theorem hexA_leg0_p3 : (hexA.legs 0).p3 = ⟨2, 0, 0⟩ := by
  simp [hexA, mkLeg, footA, testNames]

theorem hexA_leg0_d : coxia_to_foot_length hexA 0 = 1 := by
  have hd := (planar_leg_eval hexA 0 2 (by norm_num) rfl hexA_leg0_p3 rfl rfl).2.2.2.2.2
  norm_num at hd
  exact hd

theorem hexA_leg0_coxia_ok : ¬ (coxia_joint hexA 0).z < ((hexA.legs 0).foot_tip).z := by
  have hcj := (planar_leg_eval hexA 0 2 (by norm_num) rfl hexA_leg0_p3 rfl rfl).2.1
  norm_num at hcj
  unfold Leg.foot_tip
  rw [hcj, hexA_leg0_p3]
  norm_num

theorem hexA_leg0_triangle :
    is_triangle hexA.tibia hexA.femur (coxia_to_foot_length hexA 0) := by
  rw [hexA_leg0_d]
  refine ⟨?_, ?_, ?_⟩ <;> norm_num [hexA]

/-- Witness for C3 at a concrete input: hexA's leg 0 forms a 1-1-1
triangle, its local foot is not above the coxia joint, and the amended
case A facts hold there. -/
theorem C3_caseA_witness :
    is_triangle hexA.tibia hexA.femur (coxia_to_foot_length hexA 0) ∧
    (¬ (coxia_joint hexA 0).z < ((hexA.legs 0).foot_tip).z) ∧
    ((p3_local hexA 0).z ≤ 0 → betaA hexA 0 = thetaA hexA 0 - phiA hexA 0) ∧
    ((∃ nm, leg_step cfgTest hexA 0 [] = Except.error (Alert.groundBlocking nm)) ↔
      (p2A hexA 0).z < (p3_local hexA 0).z) := by
  have happ := C3_caseA_amended cfgTest hexA 0 [] hexA_leg0_coxia_ok hexA_leg0_triangle
  exact ⟨hexA_leg0_triangle, hexA_leg0_coxia_ok, happ.2.1, happ.2.2.2.2.1⟩

theorem hexD_leg0_p3 : (hexD.legs 0).p3 = ⟨1 + Real.sqrt 2, 0, 0⟩ := by
  simp [hexD, mkLeg, footD, testNames]

theorem sqrt_two_pos : (0:ℝ) < Real.sqrt 2 := Real.sqrt_pos.mpr (by norm_num)

theorem hexD_leg0_d : coxia_to_foot_length hexD 0 = Real.sqrt 2 := by
  have hd := (planar_leg_eval hexD 0 (1 + Real.sqrt 2)
    (by positivity) rfl hexD_leg0_p3 rfl rfl).2.2.2.2.2
  rw [show |(1:ℝ) + Real.sqrt 2| = 1 + Real.sqrt 2 from abs_of_pos (by positivity),
    show (1:ℝ) + Real.sqrt 2 - 1 = Real.sqrt 2 by ring,
    abs_of_nonneg (Real.sqrt_nonneg 2)] at hd
  exact hd

theorem hexD_leg0_ctf : coxia_to_foot_vector2d hexD 0 = ⟨Real.sqrt 2, 0, 0⟩ := by
  have hctf := (planar_leg_eval hexD 0 (1 + Real.sqrt 2)
    (by positivity) rfl hexD_leg0_p3 rfl rfl).2.2.2.2.1
  rw [show |(1:ℝ) + Real.sqrt 2| = 1 + Real.sqrt 2 from abs_of_pos (by positivity),
    show (1:ℝ) + Real.sqrt 2 - 1 = Real.sqrt 2 by ring] at hctf
  exact hctf

theorem hexD_leg0_p3z : (p3_local hexD 0).z = 0 := by
  have hp3 := (planar_leg_eval hexD 0 (1 + Real.sqrt 2)
    (by positivity) rfl hexD_leg0_p3 rfl rfl).2.2.2.1
  rw [hp3]

theorem hexD_leg0_triangle :
    is_triangle hexD.tibia hexD.femur (coxia_to_foot_length hexD 0) := by
  rw [hexD_leg0_d]
  have hsq : Real.sqrt 2 ^ 2 = 2 := Real.sq_sqrt (by norm_num)
  have hlt : Real.sqrt 2 < 2 := by nlinarith [sqrt_two_pos]
  refine ⟨?_, ?_, ?_⟩ <;> simp [hexD] <;> nlinarith [sqrt_two_pos]

theorem hexD_leg0_phi : phiA hexD 0 = 0 := by
  unfold phiA
  rw [hexD_leg0_ctf]
  unfold angle_between dot
  rw [length_x_axis, length_x_axis,
    abs_of_nonneg (Real.sqrt_nonneg 2), abs_of_nonneg (by norm_num : (0:ℝ) ≤ 1)]
  rw [show Real.sqrt 2 * 1 + 0 * 0 + 0 * 0 = Real.sqrt 2 by ring, mul_one,
    div_self (ne_of_gt sqrt_two_pos)]
  exact arccosd_one

theorem hexD_leg0_theta : thetaA hexD 0 = 45 := by
  unfold thetaA
  rw [hexD_leg0_d]
  have hf : hexD.femur = 1 := rfl
  have ht : hexD.tibia = 1 := rfl
  rw [hf, ht]
  unfold angle_opposite_of_last_side
  have hsq : Real.sqrt 2 ^ 2 = 2 := Real.sq_sqrt (by norm_num)
  have harg : (Real.sqrt 2 ^ 2 + 1 ^ 2 - 1 ^ 2) / (2 * Real.sqrt 2 * 1) =
      Real.sqrt 2 / 2 := by
    rw [hsq]
    rw [div_eq_div_iff (by positivity) (by norm_num)]
    nlinarith [hsq]
  rw [harg]
  exact arccosd_sqrt_two_div_two

/-- C3 counterexample: on hexD's leg 0 (a 1-1-√2 right triangle, local foot
not above the coxia joint) the solver's beta is 45, while "law-of-cosines
angle opposite d" minus phi is 90: beta is computed from the angle opposite
the TIBIA, not the angle opposite d as the claim states. -/
theorem C3_counterexample :
    is_triangle hexD.tibia hexD.femur (coxia_to_foot_length hexD 0) ∧
    (p3_local hexD 0).z ≤ 0 ∧
    betaA hexD 0 ≠
      angle_opposite_of_last_side hexD.femur hexD.tibia (coxia_to_foot_length hexD 0) -
        phiA hexD 0 := by
  refine ⟨hexD_leg0_triangle, le_of_eq hexD_leg0_p3z, ?_⟩
  have hbeta : betaA hexD 0 = 45 := by
    unfold betaA
    rw [if_neg (by rw [hexD_leg0_p3z]; norm_num), hexD_leg0_theta, hexD_leg0_phi]
    norm_num
  have hclaim : angle_opposite_of_last_side hexD.femur hexD.tibia
      (coxia_to_foot_length hexD 0) = 90 := by
    rw [hexD_leg0_d]
    have hf : hexD.femur = 1 := rfl
    have ht : hexD.tibia = 1 := rfl
    rw [hf, ht]
    unfold angle_opposite_of_last_side
    have hsq : Real.sqrt 2 ^ 2 = 2 := Real.sq_sqrt (by norm_num)
    rw [hsq, show ((1:ℝ) ^ 2 + 1 ^ 2 - 2) / (2 * 1 * 1) = 0 by norm_num]
    exact arccosd_zero
  rw [hbeta, hclaim, hexD_leg0_phi]
  norm_num

/-!  Parameterized evaluation of planted planar legs, for the hexC3
fixture: a foot at (3, 0, 0) solves case B fully extended with all angles
zero; a foot at (-3, 0, 0) with a 45-degree mounting offset reaches the
alpha check with alpha = 135 and is rejected against the limit 90. -/

theorem caseB_planted_step (h : Hexapod) (i : Fin 6) (ab : List String)
    (hv : h.bodyVertices i = ⟨0, 0, 0⟩) (hf : (h.legs i).p3 = ⟨3, 0, 0⟩)
    (hx : h.x_axis = ⟨1, 0, 0⟩) (hz : h.z_axis = ⟨0, 0, 1⟩)
    (hcox : h.coxia = 1) (hfm : h.femur = 1) (htb : h.tibia = 1)
    (hax : h.coxiaAxes i = 0)
    (hls : (legs_too_short (ab ++ [(h.legs i).name])).2 = none) :
    leg_step cfgTest h i ab =
      Except.ok ⟨⟨0, 0, 0⟩, ⟨1, 0, 0⟩, ⟨2, 0, 0⟩, ⟨3, 0, 0⟩, 0, 0, 0, 0,
        ab ++ [(h.legs i).name]⟩ := by
  obtain ⟨hu, hcj, hrho, hp3, hctf, hd⟩ :=
    planar_leg_eval h i 3 (by norm_num) hv hf hz hcox
  norm_num at hu hcj hp3 hctf hd
  have hcox_ok : ¬ (coxia_joint h i).z < ((h.legs i).foot_tip).z := by
    unfold Leg.foot_tip
    rw [hcj, hf]
    norm_num
  have hnt : ¬ is_triangle h.tibia h.femur (coxia_to_foot_length h i) := by
    rw [hd, htb, hfm]
    intro hh
    have := hh.1
    norm_num at this
  have hdir : femur_tibia_direction h i = ⟨1, 0, 0⟩ := by
    unfold femur_tibia_direction
    rw [hctf]
    unfold get_unit_vector
    rw [length_x_axis]
    norm_num [scalar_multiply]
  have hfv : femur_vectorB h i = ⟨1, 0, 0⟩ := by
    unfold femur_vectorB
    rw [hdir, hfm]
    norm_num [scalar_multiply]
  have hp1 : p1_local h = ⟨1, 0, 0⟩ := by
    unfold p1_local
    rw [hcox]
  have hp2B : p2B h i = ⟨2, 0, 0⟩ := by
    unfold p2B
    rw [hfv, hp1]
    norm_num [add_vectors]
  have htv : tibia_vectorB h i = ⟨1, 0, 0⟩ := by
    unfold tibia_vectorB
    rw [hdir, htb]
    norm_num [scalar_multiply]
  have hp3B : p3B h i = ⟨3, 0, 0⟩ := by
    unfold p3B
    rw [hp2B, htv]
    norm_num [add_vectors]
  have hbB : betaB h i = 0 := by
    unfold betaB
    rw [hfv, if_neg (by norm_num)]
    have hh := angle_between_x_unit 1 one_ne_zero
    norm_num at hh
    exact hh
  have htw : twistOf h i = 0 := by
    have hh := planar_twist_eval h i 3 (by norm_num) hv hf hx hz hcox
    norm_num at hh
    rw [hh, arccosd_one]
  have hal : alphaOf h i = 0 := by
    unfold alphaOf
    rw [htw, hax, compute_twist_small 0 0 (by norm_num) (by norm_num)]
    norm_num
  rw [leg_step_caseB cfgTest h i ab hcox_ok hnt, hd]
  rw [if_neg (by rw [htb, hfm]; norm_num), if_neg (by rw [hfm, htb]; norm_num)]
  rw [hls, hp1, hp2B, hp3B, hbB, leg_tail_eq, hal, htw]
  rw [if_neg (by norm_num [cfgTest]), if_neg (by norm_num [cfgTest]),
    if_neg (by norm_num [cfgTest])]

theorem alphaFail_planted_step (h : Hexapod) (i : Fin 6) (ab : List String)
    (hv : h.bodyVertices i = ⟨0, 0, 0⟩) (hf : (h.legs i).p3 = ⟨-3, 0, 0⟩)
    (hx : h.x_axis = ⟨1, 0, 0⟩) (hz : h.z_axis = ⟨0, 0, 1⟩)
    (hcox : h.coxia = 1) (hfm : h.femur = 1) (htb : h.tibia = 1)
    (hax : h.coxiaAxes i = 45)
    (hls : (legs_too_short (ab ++ [(h.legs i).name])).2 = none) :
    leg_step cfgTest h i ab =
      Except.error
        (Alert.aboveRangeOfMotion "coxia angle (alpha)" (h.legs i).name 135 90) := by
  obtain ⟨hu, hcj, hrho, hp3, hctf, hd⟩ :=
    planar_leg_eval h i (-3) (by norm_num) hv hf hz hcox
  norm_num at hu hcj hp3 hctf hd
  have hcox_ok : ¬ (coxia_joint h i).z < ((h.legs i).foot_tip).z := by
    unfold Leg.foot_tip
    rw [hcj, hf]
    norm_num
  have hnt : ¬ is_triangle h.tibia h.femur (coxia_to_foot_length h i) := by
    rw [hd, htb, hfm]
    intro hh
    have := hh.1
    norm_num at this
  have hbB : betaB h i = 0 := by
    unfold betaB femur_vectorB femur_tibia_direction
    rw [hctf]
    unfold get_unit_vector
    rw [length_x_axis]
    have hfv : scalar_multiply (scalar_multiply ⟨2, 0, 0⟩ (1 / |(2:ℝ)|)) h.femur =
        (⟨1, 0, 0⟩ : Point) := by
      rw [hfm]
      norm_num [scalar_multiply]
    rw [hfv, if_neg (by norm_num)]
    have hh := angle_between_x_unit 1 one_ne_zero
    norm_num at hh
    exact hh
  have hal : alphaOf h i = 135 := by
    unfold alphaOf
    have hh := planar_twist_eval h i (-3) (by norm_num) hv hf hx hz hcox
    norm_num at hh
    rw [hh, arccosd_neg_one, hax, compute_twist_small 180 45 (by norm_num) (by norm_num)]
    norm_num
  rw [leg_step_caseB cfgTest h i ab hcox_ok hnt, hd]
  rw [if_neg (by rw [htb, hfm]; norm_num), if_neg (by rw [hfm, htb]; norm_num)]
  rw [hls, hbB, leg_tail_eq, hal]
  rw [if_neg (by norm_num [cfgTest]), if_neg (by norm_num [cfgTest]),
    if_pos (by norm_num [cfgTest])]
  rfl

theorem hexC3_leg0_name : (hexC3.legs 0).name = "right-middle" := by
  simp [hexC3, mkLeg]

theorem hexC3_leg1_name : (hexC3.legs 1).name = "right-front" := by
  simp [hexC3, mkLeg]

theorem hexC3_leg2_name : (hexC3.legs 2).name = "left-front" := by
  simp [hexC3, mkLeg, testNames]

/-- Leg 0 of hexC3 solves (case B, airborne). -/
theorem hexC3_leg0_step :
    leg_step cfgTest hexC3 0 [] =
      Except.ok ⟨⟨0, 0, 0⟩, ⟨1, 0, 0⟩, ⟨2, 0, 0⟩, ⟨3, 0, 0⟩, 0, 0, 0, 0,
        ["right-middle"]⟩ := by
  have hh := caseB_planted_step hexC3 0 [] rfl (by simp [hexC3, mkLeg, footB])
    rfl rfl rfl rfl rfl (by simp [hexC3]) (by rw [hexC3_leg0_name]; rfl)
  rw [hexC3_leg0_name] at hh
  simpa using hh

/-- Leg 1 of hexC3 also solves, with both airborne legs recorded. -/
theorem hexC3_leg1_step :
    leg_step cfgTest hexC3 1 ["right-middle"] =
      Except.ok ⟨⟨0, 0, 0⟩, ⟨1, 0, 0⟩, ⟨2, 0, 0⟩, ⟨3, 0, 0⟩, 0, 0, 0, 0,
        ["right-middle", "right-front"]⟩ := by
  have hh := caseB_planted_step hexC3 1 ["right-middle"] rfl
    (by simp [hexC3, mkLeg, footB]) rfl rfl rfl rfl rfl (by simp [hexC3])
    (by rw [hexC3_leg1_name]; rfl)
  rw [hexC3_leg1_name] at hh
  simpa using hh

/-- Leg 2 of hexC3 fails the alpha range check with alpha = 135. -/
theorem hexC3_leg2_step :
    leg_step cfgTest hexC3 2 ["right-middle", "right-front"] =
      Except.error
        (Alert.aboveRangeOfMotion "coxia angle (alpha)" "left-front" 135 90) := by
  have hh := alphaFail_planted_step hexC3 2 ["right-middle", "right-front"] rfl
    (by simp [hexC3, mkLeg, footC, testNames]) rfl rfl rfl rfl rfl (by simp [hexC3])
    (by rw [hexC3_leg2_name]; rfl)
  rw [hexC3_leg2_name] at hh
  exact hh

theorem hexC3_no_body_collision : ¬ body_contact_shoved_on_ground hexC3 := by
  rintro ⟨i, hi⟩
  revert hi
  fin_cases i <;>
    simp [hexC3, mkLeg, footB, footC, testNames, Leg.foot_tip]

/-- Running the whole request on hexC3: legs 0 and 1 are solved and leg 2
fails the alpha range check, so no poses are returned. -/
theorem hexC3_run (tb : PosesTable) :
    (inverse_kinematics_update cfgTest id hexC3 tb).poses = none ∧
    (inverse_kinematics_update cfgTest id hexC3 tb).alert =
      some (Alert.aboveRangeOfMotion "coxia angle (alpha)" "left-front" 135 90) := by
  have h1 : inverse_kinematics_update cfgTest id hexC3 tb =
      ik_loop cfgTest hexC3 hexC3 tb [] legIndices := by
    simp only [inverse_kinematics_update, id_eq]
    rw [if_neg hexC3_no_body_collision]
  have key2 : ∀ (A B : Point × Point × Point × Point) (tb2 : PosesTable),
      ik_loop cfgTest hexC3 (update_hexapod_points (update_hexapod_points hexC3 0 A) 1 B)
          tb2 ["right-middle", "right-front"] (2 :: [3, 4, 5]) =
        ⟨hexC3, update_hexapod_points (update_hexapod_points hexC3 0 A) 1 B, none,
          some (Alert.aboveRangeOfMotion "coxia angle (alpha)" "left-front" 135 90),
          tb2⟩ := by
    intro A B tb2
    rw [ik_loop_cons_error cfgTest hexC3
      (update_hexapod_points (update_hexapod_points hexC3 0 A) 1 B) tb2
      ["right-middle", "right-front"] 2 [3, 4, 5]
      (Alert.aboveRangeOfMotion "coxia angle (alpha)" "left-front" 135 90) (by
        rw [leg_step_after_update cfgTest (update_hexapod_points hexC3 0 A) 1 2 B
          ["right-middle", "right-front"] (show (2 : Fin 6) ≠ 1 from by decide),
          leg_step_after_update cfgTest hexC3 0 2 A
          ["right-middle", "right-front"] (show (2 : Fin 6) ≠ 0 from by decide)]
        exact hexC3_leg2_step)]
  have key1 : ∀ (A : Point × Point × Point × Point) (tb1 : PosesTable),
      (ik_loop cfgTest hexC3 (update_hexapod_points hexC3 0 A) tb1 ["right-middle"]
          (1 :: [2, 3, 4, 5])).poses = none ∧
      (ik_loop cfgTest hexC3 (update_hexapod_points hexC3 0 A) tb1 ["right-middle"]
          (1 :: [2, 3, 4, 5])).alert =
        some (Alert.aboveRangeOfMotion "coxia angle (alpha)" "left-front" 135 90) := by
    intro A tb1
    rw [ik_loop_cons_ok cfgTest hexC3 (update_hexapod_points hexC3 0 A) tb1
      ["right-middle"] 1 [2, 3, 4, 5]
      ⟨⟨0, 0, 0⟩, ⟨1, 0, 0⟩, ⟨2, 0, 0⟩, ⟨3, 0, 0⟩, 0, 0, 0, 0,
        ["right-middle", "right-front"]⟩ (by
        rw [leg_step_after_update cfgTest hexC3 0 1 A ["right-middle"]
          (show (1 : Fin 6) ≠ 0 from by decide)]
        exact hexC3_leg1_step)]
    dsimp only
    rw [key2 _ _ _]
    exact ⟨rfl, rfl⟩
  rw [h1]
  simp only [legIndices]
  rw [ik_loop_cons_ok cfgTest hexC3 hexC3 tb [] 0 [1, 2, 3, 4, 5] _ hexC3_leg0_step]
  dsimp only
  exact key1 _ _

/-- Witness for C10 at a concrete input exercising k = 2: hexC3's legs 0
and 1 are both solved (each satisfying LoopSolves) before leg 2 fails; the
call returns no poses, yet both solved legs' entries of the shared table —
⟨7, 7, 7⟩ on entry — have been overwritten with this request's angles. -/
theorem C10_shared_pose_table_witness :
    (¬ body_contact_shoved_on_ground (id hexC3)) ∧
    LoopSolves cfgTest (id hexC3) [] legIndices 0
      ⟨⟨0, 0, 0⟩, ⟨1, 0, 0⟩, ⟨2, 0, 0⟩, ⟨3, 0, 0⟩, 0, 0, 0, 0, ["right-middle"]⟩ ∧
    LoopSolves cfgTest (id hexC3) [] legIndices 1
      ⟨⟨0, 0, 0⟩, ⟨1, 0, 0⟩, ⟨2, 0, 0⟩, ⟨3, 0, 0⟩, 0, 0, 0, 0,
        ["right-middle", "right-front"]⟩ ∧
    (inverse_kinematics_update cfgTest id hexC3 (fun _ => ⟨7, 7, 7⟩)).table 0 =
      ⟨0, 0, 0⟩ ∧
    (inverse_kinematics_update cfgTest id hexC3 (fun _ => ⟨7, 7, 7⟩)).table 1 =
      ⟨0, 0, 0⟩ ∧
    (inverse_kinematics_update cfgTest id hexC3 (fun _ => ⟨7, 7, 7⟩)).poses = none ∧
    (⟨0, 0, 0⟩ : PoseAngles) ≠ (⟨7, 7, 7⟩ : PoseAngles) := by
  have hsol0 : LoopSolves cfgTest hexC3 [] legIndices 0
      ⟨⟨0, 0, 0⟩, ⟨1, 0, 0⟩, ⟨2, 0, 0⟩, ⟨3, 0, 0⟩, 0, 0, 0, 0, ["right-middle"]⟩ :=
    LoopSolves.head hexC3 [] 0 [1, 2, 3, 4, 5] _ hexC3_leg0_step
  have hsol1 : LoopSolves cfgTest hexC3 [] legIndices 1
      ⟨⟨0, 0, 0⟩, ⟨1, 0, 0⟩, ⟨2, 0, 0⟩, ⟨3, 0, 0⟩, 0, 0, 0, 0,
        ["right-middle", "right-front"]⟩ := by
    refine LoopSolves.tail hexC3 [] 0 [1, 2, 3, 4, 5] 1 _
      ⟨⟨0, 0, 0⟩, ⟨1, 0, 0⟩, ⟨2, 0, 0⟩, ⟨3, 0, 0⟩, 0, 0, 0, 0, ["right-middle"]⟩
      hexC3_leg0_step ?_
    refine LoopSolves.head _ _ 1 [2, 3, 4, 5] _ ?_
    rw [leg_step_after_update cfgTest hexC3 0 1 _ _ (show (1 : Fin 6) ≠ 0 from by decide)]
    exact hexC3_leg1_step
  refine ⟨hexC3_no_body_collision, hsol0, hsol1, ?_, ?_,
    (hexC3_run (fun _ => ⟨7, 7, 7⟩)).1, ?_⟩
  · exact (C10_shared_pose_table cfgTest id hexC3 (fun _ => ⟨7, 7, 7⟩)).2 0 _
      hexC3_no_body_collision hsol0
  · exact (C10_shared_pose_table cfgTest id hexC3 (fun _ => ⟨7, 7, 7⟩)).2 1 _
      hexC3_no_body_collision hsol1
  · intro hh
    have := congrArg PoseAngles.coxia hh
    norm_num at this
